import Mathlib

/-!
# Minor GC job scheduling (`src/heap/minor-gc-job.cc`)

A shallow embedding of `MinorGCJob` and `MinorGCJob::Task`: the trigger-size
arithmetic, `ScheduleTask`, `CancelTaskIfScheduled` and `Task::RunInternal`,
over an explicit state (`Isolate`) that holds the flags, the heap counters, the
job, the foreground task runner and the cancelable-task registry.

`size_t` values are natural numbers; the operations of the source that can wrap
are reduced modulo `2 ^ 64` explicitly.
-/

namespace V8

/-! ## Machine integers -/

/-- The number of values of a `size_t` (64-bit build). -/
def kSizeTModulus : Nat := 2 ^ 64

/-- Integral conversion of a C++ `int` to `size_t`, as applied to the flag
operand of `young_capacity * v8_flags.minor_gc_task_trigger`. -/
def toSizeT (i : Int) : Nat := (i % (kSizeTModulus : Int)).toNat

/-- Unsigned `size_t` subtraction `a - b`, which wraps when `b > a`. -/
def subSizeT (a b : Nat) : Nat :=
  (a % kSizeTModulus + (kSizeTModulus - b % kSizeTModulus)) % kSizeTModulus

/-- Unsigned `size_t` multiplication `a * b`, which wraps on overflow. -/
def mulSizeT (a b : Nat) : Nat := (a * b) % kSizeTModulus

/-! ## Data model -/

/-- The flags of `v8_flags` read by `minor-gc-job.cc`. The trigger percentage
is an integer flag and is not validated. -/
structure Flags where
  minor_gc_task : Bool
  minor_gc_task_trigger : Int
  separate_gc_phases : Bool
  sticky_mark_bits : Bool
deriving DecidableEq, Repr

/-- The counters of `heap->new_space()` that the job reads. -/
structure NewSpace where
  TotalCapacity : Nat
  Size : Nat
deriving DecidableEq, Repr

/-- The counters of `heap->sticky_space()` that the job reads. -/
structure StickySpace where
  Capacity : Nat
  old_objects_size : Nat
  young_objects_size : Nat
deriving DecidableEq, Repr

/-- Modelled from the spec: the space argument of the heap's collection entry
point (the enumeration is declared outside `minor-gc-job.cc`); `NEW_SPACE` is
the young generation. -/
inductive AllocationSpace where
  | NEW_SPACE
  | OLD_SPACE
  | CODE_SPACE
deriving DecidableEq, Repr

/-- Modelled from the spec: the reason tag of a collection request (declared
outside `minor-gc-job.cc`); `kTask` is "scheduled task". -/
inductive GarbageCollectionReason where
  | kUnknown
  | kAllocationFailure
  | kTask
  | kTesting
deriving DecidableEq, Repr

/-- The part of `Heap` that the job reads or calls. `collect_garbage_calls`
records, oldest first, every call of `Heap::CollectGarbage`. -/
structure Heap where
  is_tearing_down : Bool
  new_space : NewSpace
  sticky_space : StickySpace
  is_major_marking : Bool
  collect_garbage_calls : List (AllocationSpace × GarbageCollectionReason)
deriving DecidableEq, Repr

/-! ## Trigger calculator -/

/-- The function `MinorGCJob::YoungGenerationTaskTriggerSize(Heap* heap)`. -/
def YoungGenerationTaskTriggerSize (v8_flags : Flags) (heap : Heap) : Nat :=
  let young_capacity :=
    if v8_flags.sticky_mark_bits then
      subSizeT heap.sticky_space.Capacity heap.sticky_space.old_objects_size
    else
      heap.new_space.TotalCapacity
  mulSizeT young_capacity (toSizeT v8_flags.minor_gc_task_trigger) / 100

/-- The function `MinorGCJob::YoungGenerationSizeTaskTriggerReached(Heap* heap)`. -/
def YoungGenerationSizeTaskTriggerReached (v8_flags : Flags) (heap : Heap) : Bool :=
  if v8_flags.sticky_mark_bits then
    decide (heap.sticky_space.young_objects_size ≥
      YoungGenerationTaskTriggerSize v8_flags heap)
  else
    decide (heap.new_space.Size ≥ YoungGenerationTaskTriggerSize v8_flags heap)

/-- The local variable `young_capacity` of `YoungGenerationTaskTriggerSize`: the
capacity that the trigger size is computed from. -/
def young_capacity (v8_flags : Flags) (heap : Heap) : Nat :=
  if v8_flags.sticky_mark_bits then
    subSizeT heap.sticky_space.Capacity heap.sticky_space.old_objects_size
  else
    heap.new_space.TotalCapacity

/-! ## Tasks, runner and registry -/

/-- The type `CancelableTaskManager::Id` of task ids. -/
abbrev TaskId := Nat

/-- Modelled from the spec: `CancelableTaskManager::kInvalidTaskId`, the
sentinel "invalid" id (the constant is declared outside `minor-gc-job.cc`). -/
def kInvalidTaskId : TaskId := 0

/-- The class `MinorGCJob::Task`. The isolate and the job it is bound to (`isolate_`,
`job_`) are the single isolate and job of the state it is posted in; what
distinguishes one task from another is the id that the registry gave it. -/
structure Task where
  id : TaskId
deriving DecidableEq, Repr

/-- Modelled from the spec: the outcomes of an abort request (`Aborted`,
`AlreadyRan`, `NotFound`), under the names the source comment uses. -/
inductive TryAbortResult where
  | kTaskRemoved
  | kTaskRunning
  | kTaskAborted
deriving DecidableEq, Repr

/-- Modelled from the spec: the cancelable-task registry, whose code is outside
`minor-gc-job.cc`. `cancelable_tasks` are the ids of the registered tasks that
have neither started nor been aborted, `running_tasks` those that have started
and not finished; `try_abort_calls` records, oldest first, the id of every
abort request. -/
structure CancelableTaskManager where
  cancelable_tasks : List TaskId
  running_tasks : List TaskId
  try_abort_calls : List TaskId
deriving DecidableEq, Repr

/-- Modelled from the spec: the foreground task runner, whose code is outside
`minor-gc-job.cc`. `non_nestable_tasks` is the queue of the tasks posted with
`PostNonNestableTask` and not yet taken by the runner, oldest first. -/
structure TaskRunner where
  non_nestable_tasks_enabled : Bool
  non_nestable_tasks : List Task
deriving DecidableEq, Repr

/-- The class `MinorGCJob`: the only mutable field is `current_task_id_`. -/
structure MinorGCJob where
  current_task_id_ : TaskId
deriving DecidableEq, Repr

/-- The state the job works in: the global flags, whether `DCHECK`s are
compiled in, the heap, the job the heap owns, the runner that
`GetForegroundTaskRunner` returns and the isolate's cancelable-task registry. -/
structure Isolate where
  v8_flags : Flags
  dcheck_is_on : Bool
  heap : Heap
  minor_gc_job : MinorGCJob
  foreground_task_runner : TaskRunner
  cancelable_task_manager : CancelableTaskManager
deriving DecidableEq, Repr

/-- Modelled from the spec: the registration that the `CancelableTask`
constructor performs. The registry assigns the new task the id `id` and holds
it as a task that can still be aborted. -/
def CancelableTaskManager.Register (m : CancelableTaskManager) (id : TaskId) :
    CancelableTaskManager :=
  { m with cancelable_tasks := id :: m.cancelable_tasks }

/-- Modelled from the spec: `CancelableTaskManager::TryAbort`. A task that has
not started is aborted and removed, a started one is reported as running, any
other id as removed; the request is recorded in each case. -/
def CancelableTaskManager.TryAbort (m : CancelableTaskManager) (id : TaskId) :
    TryAbortResult × CancelableTaskManager :=
  let m1 := { m with try_abort_calls := m.try_abort_calls ++ [id] }
  if m.cancelable_tasks.contains id then
    (TryAbortResult.kTaskAborted,
      { m1 with cancelable_tasks := m.cancelable_tasks.filter (fun i => i != id) })
  else if m.running_tasks.contains id then
    (TryAbortResult.kTaskRunning, m1)
  else
    (TryAbortResult.kTaskRemoved, m1)

/-- Modelled from the spec: `TaskRunner::PostNonNestableTask`, which takes
ownership of the task and puts it at the end of the queue. -/
def TaskRunner.PostNonNestableTask (r : TaskRunner) (task : Task) : TaskRunner :=
  { r with non_nestable_tasks := r.non_nestable_tasks ++ [task] }

/-- Modelled from the spec: `Heap::CollectGarbage`, the collection entry point.
The collection itself is outside this component; the call is recorded. -/
def Heap.CollectGarbage (heap : Heap) (space : AllocationSpace)
    (reason : GarbageCollectionReason) : Heap :=
  { heap with collect_garbage_calls := heap.collect_garbage_calls ++ [(space, reason)] }

/-! ## The scheduling job -/

/-- The state of `ScheduleTask` between lines 70-71 and line 72: the task has
been constructed (the registry gave it `task_id`) and its id has been written to
`current_task_id_`; nothing has been posted yet. -/
def ScheduleTask_beforePost (iso : Isolate) (task_id : TaskId) : Isolate :=
  { iso with
    cancelable_task_manager := iso.cancelable_task_manager.Register task_id
    minor_gc_job := { iso.minor_gc_job with current_task_id_ := task_id } }

/-- The method `MinorGCJob::ScheduleTask()`. `task_id` is the id that the registry assigns
to the task if one is constructed (`task->id()`); it is not used otherwise. -/
def ScheduleTask (iso : Isolate) (task_id : TaskId) : Isolate :=
  if !iso.v8_flags.minor_gc_task then iso
  else if iso.minor_gc_job.current_task_id_ != kInvalidTaskId then iso
  else if iso.heap.is_tearing_down then iso
  else if iso.foreground_task_runner.non_nestable_tasks_enabled then
    let iso1 := ScheduleTask_beforePost iso task_id
    { iso1 with
      foreground_task_runner :=
        iso1.foreground_task_runner.PostNonNestableTask { id := task_id } }
  else iso

/-- The method `MinorGCJob::CancelTaskIfScheduled()`. The result of `TryAbort` is
discarded, as in the source. -/
def CancelTaskIfScheduled (iso : Isolate) : Isolate :=
  if iso.minor_gc_job.current_task_id_ == kInvalidTaskId then iso
  else
    let aborted := iso.cancelable_task_manager.TryAbort iso.minor_gc_job.current_task_id_
    { iso with
      cancelable_task_manager := aborted.2
      minor_gc_job := { iso.minor_gc_job with current_task_id_ := kInvalidTaskId } }

/-! ## The collection task -/

/-- The check `DCHECK_EQ(job_->current_task_id_, id())`: whether execution gets past the
check. It is compiled in only when `dcheck_is_on`. -/
def RunInternal_dcheck (iso : Isolate) (id : TaskId) : Bool :=
  !iso.dcheck_is_on || iso.minor_gc_job.current_task_id_ == id

/-- The state of `RunInternal` after line 89: `current_task_id_` has been
cleared, neither the veto check nor the collection has happened. -/
def RunInternal_afterClear (iso : Isolate) : Isolate :=
  { iso with minor_gc_job := { iso.minor_gc_job with current_task_id_ := kInvalidTaskId } }

/-- The veto of lines 92-93: phase separation is configured and major
incremental marking is active. -/
def RunInternal_veto (iso : Isolate) : Bool :=
  iso.v8_flags.separate_gc_phases && iso.heap.is_major_marking

/-- The method `MinorGCJob::Task::RunInternal()` of the task with id `id`. `none` is the
fatal failure of the `DCHECK`. The `VMState<GC>` and trace-event scopes are
restored on return and leave no trace in the state. -/
def RunInternal (iso : Isolate) (id : TaskId) : Option Isolate :=
  if !RunInternal_dcheck iso id then none
  else
    let iso1 := RunInternal_afterClear iso
    if RunInternal_veto iso1 then some iso1
    else
      some { iso1 with
        heap := iso1.heap.CollectGarbage AllocationSpace.NEW_SPACE
          GarbageCollectionReason.kTask }

/-- Modelled from the spec: `CancelableTask::Run`, what the runner does with a
task it takes from the queue. An aborted task is discarded and touches nothing;
otherwise the task starts (it can no longer be aborted), `RunInternal` runs, and
the finished task leaves the registry. -/
def Task.Run (iso : Isolate) (task : Task) : Option Isolate :=
  if iso.cancelable_task_manager.cancelable_tasks.contains task.id then
    let m := iso.cancelable_task_manager
    let started : Isolate :=
      { iso with
        cancelable_task_manager :=
          { m with
            cancelable_tasks := m.cancelable_tasks.filter (fun i => i != task.id)
            running_tasks := task.id :: m.running_tasks } }
    match RunInternal started task.id with
    | none => none
    | some done =>
      some { done with
        cancelable_task_manager :=
          { done.cancelable_task_manager with
            running_tasks :=
              done.cancelable_task_manager.running_tasks.filter (fun i => i != task.id) } }
  else some iso

/-- Modelled from the spec: the runner takes the task at the head of its queue
and runs it. `none` when the queue is empty or the task fails its `DCHECK`. -/
def RunNextTask (iso : Isolate) : Option Isolate :=
  match iso.foreground_task_runner.non_nestable_tasks with
  | [] => none
  | task :: rest =>
    Task.Run
      { iso with
        foreground_task_runner :=
          { iso.foreground_task_runner with non_nestable_tasks := rest } }
      task

/-! ## Calls into the job while one of its functions is under way -/

/-- Modelled from the spec: a call into the job's interface issued by other code
(a concurrent caller, or the collaborator that is being called) while a function
of the job is under way. `schedule task_id` is a call of `ScheduleTask()` for
which the registry has the id `task_id` on offer, `cancel` a call of
`CancelTaskIfScheduled()`. -/
inductive JobCall where
  | schedule (task_id : TaskId)
  | cancel
deriving DecidableEq, Repr

/-- The effect of one such call on the state. -/
def JobCall.apply (iso : Isolate) : JobCall → Isolate
  | JobCall.schedule task_id => ScheduleTask iso task_id
  | JobCall.cancel => CancelTaskIfScheduled iso

/-- The method `MinorGCJob::ScheduleTask()` together with the calls `at_post`
that other code issues at the moment of line 72, when the task is handed to the
runner and before the runner has queued it. Lines 58-71 are as in
`ScheduleTask`. -/
def ScheduleTaskDuring (iso : Isolate) (task_id : TaskId) (at_post : List JobCall) :
    Isolate :=
  if !iso.v8_flags.minor_gc_task then iso
  else if iso.minor_gc_job.current_task_id_ != kInvalidTaskId then iso
  else if iso.heap.is_tearing_down then iso
  else if iso.foreground_task_runner.non_nestable_tasks_enabled then
    let iso1 := ScheduleTask_beforePost iso task_id
    let iso2 := at_post.foldl JobCall.apply iso1
    { iso2 with
      foreground_task_runner :=
        iso2.foreground_task_runner.PostNonNestableTask { id := task_id } }
  else iso

/-- Modelled from the spec: the collection entry point `Heap::CollectGarbage`
together with the calls `during` into the job that are issued while the
collection runs, after it was entered and before it returns. -/
def CollectGarbageDuring (iso : Isolate) (space : AllocationSpace)
    (reason : GarbageCollectionReason) (during : List JobCall) : Isolate :=
  during.foldl JobCall.apply { iso with heap := iso.heap.CollectGarbage space reason }

/-- The method `MinorGCJob::Task::RunInternal()` together with the calls into
the job that other code issues while it is under way: `at_veto_check` at the
moment of the veto check of lines 92-93, `during_collection` while the
collection of line 98 runs. Lines 88-89 are as in `RunInternal`. -/
def RunInternalDuring (iso : Isolate) (id : TaskId)
    (at_veto_check during_collection : List JobCall) : Option Isolate :=
  if !RunInternal_dcheck iso id then none
  else
    let iso1 := RunInternal_afterClear iso
    let iso2 := at_veto_check.foldl JobCall.apply iso1
    if RunInternal_veto iso2 then some iso2
    else
      some (CollectGarbageDuring iso2 AllocationSpace.NEW_SPACE
        GarbageCollectionReason.kTask during_collection)

/-! ## The system of job, runner and registry -/

/-- The tasks of the job that are outstanding: posted, not started and not
aborted. -/
def OutstandingTasks (iso : Isolate) : List Task :=
  iso.foreground_task_runner.non_nestable_tasks.filter
    (fun t => iso.cancelable_task_manager.cancelable_tasks.contains t.id)

/-- The registry's contract on the id of a new task: it is a valid id (not the
sentinel) and no live task has it, neither a registered one nor one still held
by the runner. -/
def FreshTaskId (iso : Isolate) (id : TaskId) : Prop :=
  id ≠ kInvalidTaskId ∧
  id ∉ iso.cancelable_task_manager.cancelable_tasks ∧
  id ∉ iso.cancelable_task_manager.running_tasks ∧
  ∀ t ∈ iso.foreground_task_runner.non_nestable_tasks, t.id ≠ id

instance (iso : Isolate) (id : TaskId) : Decidable (FreshTaskId iso id) := by
  unfold FreshTaskId
  infer_instance

/-- The initial states: no task recorded by the job, nothing posted. -/
def Initial (iso : Isolate) : Prop :=
  iso.minor_gc_job.current_task_id_ = kInvalidTaskId ∧
  iso.foreground_task_runner.non_nestable_tasks = []

instance (iso : Isolate) : Decidable (Initial iso) := by
  unfold Initial
  infer_instance

/-- One step of the system. The job's two entry points may be called at any
time; the runner may start the task at the head of its queue; and the
surroundings may change the flags, the heap and whether the runner accepts
non-nestable tasks, which leaves job, queue and registry alone. -/
inductive Step : Isolate → Isolate → Prop where
  | schedule (iso : Isolate) (id : TaskId) :
      FreshTaskId iso id → Step iso (ScheduleTask iso id)
  | cancel (iso : Isolate) : Step iso (CancelTaskIfScheduled iso)
  | run (iso next : Isolate) : RunNextTask iso = some next → Step iso next
  | surroundings (iso next : Isolate) :
      next.minor_gc_job = iso.minor_gc_job →
      next.foreground_task_runner.non_nestable_tasks =
        iso.foreground_task_runner.non_nestable_tasks →
      next.cancelable_task_manager = iso.cancelable_task_manager →
      Step iso next

/-- The states reachable from an initial state. -/
inductive Reachable : Isolate → Prop where
  | init (iso : Isolate) : Initial iso → Reachable iso
  | step (iso next : Isolate) : Reachable iso → Step iso next → Reachable next

/-- The bookkeeping invariant of the job: with the sentinel recorded no task is
outstanding, and otherwise the outstanding tasks are exactly the one task with
the recorded id. -/
def SchedulingInvariant (iso : Isolate) : Prop :=
  (iso.minor_gc_job.current_task_id_ = kInvalidTaskId → OutstandingTasks iso = []) ∧
  (iso.minor_gc_job.current_task_id_ ≠ kInvalidTaskId →
    OutstandingTasks iso = [{ id := iso.minor_gc_job.current_task_id_ }])

instance (iso : Isolate) : Decidable (SchedulingInvariant iso) := by
  unfold SchedulingInvariant
  infer_instance

/-- An idle isolate used in the concrete cases below: the feature is on, the
heap is not tearing down, the runner accepts non-nestable tasks, the job has no
task and nothing is posted or registered. -/
def idleIsolate : Isolate :=
  { v8_flags :=
      { minor_gc_task := true, minor_gc_task_trigger := 80,
        separate_gc_phases := true, sticky_mark_bits := false }
    dcheck_is_on := true
    heap :=
      { is_tearing_down := false
        new_space := { TotalCapacity := 1000000, Size := 0 }
        sticky_space := { Capacity := 0, old_objects_size := 0, young_objects_size := 0 }
        is_major_marking := false
        collect_garbage_calls := [] }
    minor_gc_job := { current_task_id_ := kInvalidTaskId }
    foreground_task_runner := { non_nestable_tasks_enabled := true, non_nestable_tasks := [] }
    cancelable_task_manager :=
      { cancelable_tasks := [], running_tasks := [], try_abort_calls := [] } }

/-! ## Arithmetic of the trigger size -/

/-- When the product of a `size_t` capacity and the integer percentage fits in
`size_t`, the wrapped multiplication followed by the division by 100 is the
integer quotient of the exact product. -/
theorem mulSizeT_toSizeT_div (C : Nat) (P : Int)
    (hlo : 0 ≤ (C : Int) * P) (hhi : (C : Int) * P < 2 ^ 64) :
    ((mulSizeT C (toSizeT P) / 100 : Nat) : Int) = (C : Int) * P / 100 := by
  rcases Nat.eq_zero_or_pos C with hC | hC
  · subst hC
    simp [mulSizeT]
  · have hCpos : (0 : Int) < (C : Int) := by exact_mod_cast hC
    have hP : 0 ≤ P := nonneg_of_mul_nonneg_right hlo hCpos
    obtain ⟨p, rfl⟩ := Int.eq_ofNat_of_zero_le hP
    have hprod : C * p < 2 ^ 64 := by exact_mod_cast hhi
    have hp : p < 2 ^ 64 := lt_of_le_of_lt (Nat.le_mul_of_pos_left p hC) hprod
    have h1 : toSizeT (p : Int) = p := by
      unfold toSizeT kSizeTModulus
      have : ((p : Int) % ((2 ^ 64 : Nat) : Int)) = ((p % 2 ^ 64 : Nat) : Int) := by
        push_cast
        rfl
      rw [this, Int.toNat_natCast, Nat.mod_eq_of_lt hp]
    rw [h1]
    unfold mulSizeT kSizeTModulus
    rw [Nat.mod_eq_of_lt hprod]
    push_cast
    rfl

/-- Wrapping subtraction is exact subtraction when nothing wraps. -/
theorem subSizeT_of_le (S O : Nat) (hO : O ≤ S) (hS : S < 2 ^ 64) :
    subSizeT S O = S - O := by
  unfold subSizeT kSizeTModulus
  have hO2 : O < 2 ^ 64 := lt_of_le_of_lt hO hS
  rw [Nat.mod_eq_of_lt hS, Nat.mod_eq_of_lt hO2]
  have : S + (2 ^ 64 - O) = (S - O) + 2 ^ 64 := by omega
  rw [this, Nat.add_mod_right, Nat.mod_eq_of_lt]
  omega

/-! ## Trigger calculator: the claims -/

/-- C3. In separate-space mode (`sticky_mark_bits` off), for every new-space
total capacity `C` and trigger percentage `P` whose product fits in `size_t`
(`0 ≤ C * P < 2 ^ 64`), `YoungGenerationTaskTriggerSize` returns exactly
`floor (C * P / 100)`. -/
theorem C3_trigger_size_separate_space (v8_flags : Flags) (heap : Heap) (C : Nat) (P : Int)
    (hmode : v8_flags.sticky_mark_bits = false)
    (hC : heap.new_space.TotalCapacity = C)
    (hP : v8_flags.minor_gc_task_trigger = P)
    (hlo : 0 ≤ (C : Int) * P) (hhi : (C : Int) * P < 2 ^ 64) :
    ((YoungGenerationTaskTriggerSize v8_flags heap : Nat) : Int) =
      ⌊((C : ℚ) * (P : ℚ)) / 100⌋ := by
  have hq : ((C : ℚ) * (P : ℚ)) / 100 = ((((C : Int) * P : Int) : ℚ) / ((100 : Nat) : ℚ)) := by
    push_cast
    rfl
  rw [hq, Rat.floor_intCast_div_natCast]
  unfold YoungGenerationTaskTriggerSize
  simp only [hmode, hC, hP, Bool.false_eq_true, if_false]
  exact mulSizeT_toSizeT_div C P hlo hhi

/-- C3, at the spec's concrete case: capacity 1,000,000 and percentage 25 give
the trigger size 250,000. -/
theorem C3_trigger_size_separate_space_witness :
    ((YoungGenerationTaskTriggerSize
        { minor_gc_task := true, minor_gc_task_trigger := 25,
          separate_gc_phases := false, sticky_mark_bits := false }
        { is_tearing_down := false,
          new_space := { TotalCapacity := 1000000, Size := 0 },
          sticky_space := { Capacity := 0, old_objects_size := 0, young_objects_size := 0 },
          is_major_marking := false, collect_garbage_calls := [] } : Nat) : Int) =
      ⌊(((1000000 : Nat) : ℚ) * ((25 : Int) : ℚ)) / 100⌋ ∧
    ⌊(((1000000 : Nat) : ℚ) * ((25 : Int) : ℚ)) / 100⌋ = 250000 :=
  ⟨C3_trigger_size_separate_space _ _ 1000000 25 rfl rfl rfl (by norm_num) (by norm_num),
    by norm_num⟩

/-- C4. For every heap state, `YoungGenerationSizeTaskTriggerReached` is true if
and only if the occupied young bytes of the mode (`young_objects_size` of the
sticky space in sticky mode, `Size` of the new space otherwise) are greater than
or equal to `YoungGenerationTaskTriggerSize` of the same heap. At capacity
1,000,000 and percentage 25, 249,999 occupied bytes do not reach the trigger
and 250,000 do. -/
theorem C4_trigger_reached_iff :
    (∀ (v8_flags : Flags) (heap : Heap),
      YoungGenerationSizeTaskTriggerReached v8_flags heap = true ↔
        YoungGenerationTaskTriggerSize v8_flags heap ≤
          (if v8_flags.sticky_mark_bits then heap.sticky_space.young_objects_size
           else heap.new_space.Size)) ∧
    (∀ (occupied : Nat),
      YoungGenerationSizeTaskTriggerReached
        { minor_gc_task := true, minor_gc_task_trigger := 25,
          separate_gc_phases := false, sticky_mark_bits := false }
        { is_tearing_down := false,
          new_space := { TotalCapacity := 1000000, Size := occupied },
          sticky_space := { Capacity := 0, old_objects_size := 0, young_objects_size := 0 },
          is_major_marking := false, collect_garbage_calls := [] } =
        decide (250000 ≤ occupied)) := by
  constructor
  · intro v8_flags heap
    unfold YoungGenerationSizeTaskTriggerReached
    cases hs : v8_flags.sticky_mark_bits <;> simp
  · intro occupied
    have hsize : mulSizeT 1000000 (toSizeT 25) / 100 = 250000 := by decide
    unfold YoungGenerationSizeTaskTriggerReached YoungGenerationTaskTriggerSize
    simp only [Bool.false_eq_true, if_false, hsize, ge_iff_le]

/-- C5, as stated, fails when the arithmetic wraps: with sticky-space capacity
`2 ^ 63`, no old objects and percentage 50, the product `2 ^ 63 * 50` wraps to 0
in `size_t`, so the code returns 0, whereas `floor ((S - O) * P / 100)` is
`2 ^ 62`. -/
theorem C5_trigger_size_sticky_counterexample :
    YoungGenerationTaskTriggerSize
        { minor_gc_task := true, minor_gc_task_trigger := 50,
          separate_gc_phases := false, sticky_mark_bits := true }
        { is_tearing_down := false,
          new_space := { TotalCapacity := 0, Size := 0 },
          sticky_space :=
            { Capacity := 9223372036854775808, old_objects_size := 0,
              young_objects_size := 0 },
          is_major_marking := false, collect_garbage_calls := [] } = 0 ∧
    ⌊((((9223372036854775808 : Nat) : ℚ) - ((0 : Nat) : ℚ)) * ((50 : Int) : ℚ)) / 100⌋ =
      4611686018427387904 ∧
    ((YoungGenerationTaskTriggerSize
        { minor_gc_task := true, minor_gc_task_trigger := 50,
          separate_gc_phases := false, sticky_mark_bits := true }
        { is_tearing_down := false,
          new_space := { TotalCapacity := 0, Size := 0 },
          sticky_space :=
            { Capacity := 9223372036854775808, old_objects_size := 0,
              young_objects_size := 0 },
          is_major_marking := false, collect_garbage_calls := [] } : Nat) : Int) ≠
      ⌊((((9223372036854775808 : Nat) : ℚ) - ((0 : Nat) : ℚ)) * ((50 : Int) : ℚ)) / 100⌋ := by
  have h : ((((9223372036854775808 : Nat) : ℚ) - ((0 : Nat) : ℚ)) * ((50 : Int) : ℚ)) / 100 =
      ((4611686018427387904 : Int) : ℚ) := by norm_num
  have hcode : YoungGenerationTaskTriggerSize
        { minor_gc_task := true, minor_gc_task_trigger := 50,
          separate_gc_phases := false, sticky_mark_bits := true }
        { is_tearing_down := false,
          new_space := { TotalCapacity := 0, Size := 0 },
          sticky_space :=
            { Capacity := 9223372036854775808, old_objects_size := 0,
              young_objects_size := 0 },
          is_major_marking := false, collect_garbage_calls := [] } = 0 := by decide
  refine ⟨hcode, ?_, ?_⟩
  · rw [h, Int.floor_intCast]
  · rw [hcode, h, Int.floor_intCast]
    decide

/-- C5, amended. In sticky mode (`sticky_mark_bits` on), for every sticky-space
capacity `S` (a `size_t` value), old-object size `O ≤ S` and trigger percentage
`P` such that the product `(S - O) * P` fits in `size_t`,
`YoungGenerationTaskTriggerSize` returns `floor ((S - O) * P / 100)`. -/
theorem C5_trigger_size_sticky (v8_flags : Flags) (heap : Heap) (S O : Nat) (P : Int)
    (hmode : v8_flags.sticky_mark_bits = true)
    (hS : heap.sticky_space.Capacity = S)
    (hO : heap.sticky_space.old_objects_size = O)
    (hP : v8_flags.minor_gc_task_trigger = P)
    (hle : O ≤ S) (hfit : S < 2 ^ 64)
    (hlo : 0 ≤ ((S : Int) - (O : Int)) * P) (hhi : ((S : Int) - (O : Int)) * P < 2 ^ 64) :
    ((YoungGenerationTaskTriggerSize v8_flags heap : Nat) : Int) =
      ⌊(((S : ℚ) - (O : ℚ)) * (P : ℚ)) / 100⌋ := by
  have hcast : (((S - O : Nat) : Int)) = (S : Int) - (O : Int) := Nat.cast_sub hle
  have hq : (((S : ℚ) - (O : ℚ)) * (P : ℚ)) / 100 =
      (((((S - O : Nat) : Int) * P : Int) : ℚ) / ((100 : Nat) : ℚ)) := by
    rw [hcast]
    push_cast
    rfl
  rw [hq, Rat.floor_intCast_div_natCast]
  unfold YoungGenerationTaskTriggerSize
  simp only [hmode, hS, hO, hP, if_true]
  rw [subSizeT_of_le S O hle hfit]
  exact mulSizeT_toSizeT_div (S - O) P (by rw [hcast]; exact hlo) (by rw [hcast]; exact hhi)

/-- C5, at the spec's concrete case: sticky-space capacity 1,000,000, old-object
bytes 400,000 and percentage 50 give the trigger size 300,000. -/
theorem C5_trigger_size_sticky_witness :
    ((YoungGenerationTaskTriggerSize
        { minor_gc_task := true, minor_gc_task_trigger := 50,
          separate_gc_phases := false, sticky_mark_bits := true }
        { is_tearing_down := false,
          new_space := { TotalCapacity := 0, Size := 0 },
          sticky_space :=
            { Capacity := 1000000, old_objects_size := 400000, young_objects_size := 0 },
          is_major_marking := false, collect_garbage_calls := [] } : Nat) : Int) =
      ⌊((((1000000 : Nat) : ℚ) - ((400000 : Nat) : ℚ)) * ((50 : Int) : ℚ)) / 100⌋ ∧
    ⌊((((1000000 : Nat) : ℚ) - ((400000 : Nat) : ℚ)) * ((50 : Int) : ℚ)) / 100⌋ = 300000 := by
  refine ⟨C5_trigger_size_sticky _ _ 1000000 400000 50 rfl rfl rfl rfl (by norm_num)
    (by norm_num) (by norm_num) (by norm_num), ?_⟩
  have h : ((((1000000 : Nat) : ℚ) - ((400000 : Nat) : ℚ)) * ((50 : Int) : ℚ)) / 100 =
      ((300000 : Int) : ℚ) := by norm_num
  rw [h, Int.floor_intCast]

/-! ## `ScheduleTask` and `CancelTaskIfScheduled` -/

/-- With a task already recorded, `ScheduleTask` returns at its second guard (or
at the first, with the feature off). -/
theorem ScheduleTask_of_scheduled (iso : Isolate) (task_id : TaskId)
    (h : iso.minor_gc_job.current_task_id_ ≠ kInvalidTaskId) :
    ScheduleTask iso task_id = iso := by
  unfold ScheduleTask
  by_cases hflag : iso.v8_flags.minor_gc_task = true
  · simp [hflag, h]
  · simp [hflag]

/-- When every guard lets the call through, `ScheduleTask` registers the task,
writes its id and posts it. -/
theorem ScheduleTask_of_idle (iso : Isolate) (task_id : TaskId)
    (hidle : iso.minor_gc_job.current_task_id_ = kInvalidTaskId)
    (hflag : iso.v8_flags.minor_gc_task = true)
    (hheap : iso.heap.is_tearing_down = false)
    (hrunner : iso.foreground_task_runner.non_nestable_tasks_enabled = true) :
    ScheduleTask iso task_id =
      { ScheduleTask_beforePost iso task_id with
        foreground_task_runner :=
          (ScheduleTask_beforePost iso task_id).foreground_task_runner.PostNonNestableTask
            { id := task_id } } := by
  unfold ScheduleTask
  simp [hidle, hflag, hheap, hrunner]

/-- Every call of `ScheduleTask` either changes nothing or goes all the way. -/
theorem ScheduleTask_cases (iso : Isolate) (task_id : TaskId) :
    ScheduleTask iso task_id = iso ∨
    (iso.minor_gc_job.current_task_id_ = kInvalidTaskId ∧
      ScheduleTask iso task_id =
        { ScheduleTask_beforePost iso task_id with
          foreground_task_runner :=
            (ScheduleTask_beforePost iso task_id).foreground_task_runner.PostNonNestableTask
              { id := task_id } }) := by
  by_cases hidle : iso.minor_gc_job.current_task_id_ = kInvalidTaskId
  · by_cases hflag : iso.v8_flags.minor_gc_task = true
    · by_cases hheap : iso.heap.is_tearing_down = false
      · by_cases hrunner : iso.foreground_task_runner.non_nestable_tasks_enabled = true
        · exact Or.inr ⟨hidle, ScheduleTask_of_idle iso task_id hidle hflag hheap hrunner⟩
        · left
          unfold ScheduleTask
          simp [hrunner]
      · left
        unfold ScheduleTask
        simp [hheap]
    · left
      unfold ScheduleTask
      simp [hflag]
  · exact Or.inl (ScheduleTask_of_scheduled iso task_id hidle)

/-- Any number of further `ScheduleTask` calls leaves a state with a recorded
task as it is. -/
theorem foldl_ScheduleTask_of_scheduled (ids : List TaskId) (iso : Isolate)
    (h : iso.minor_gc_job.current_task_id_ ≠ kInvalidTaskId) :
    ids.foldl ScheduleTask iso = iso := by
  induction ids with
  | nil => rfl
  | cons id rest ih =>
    rw [List.foldl_cons, ScheduleTask_of_scheduled iso id h]
    exact ih

/-- On a state with no recorded task `CancelTaskIfScheduled` returns at once. -/
theorem CancelTaskIfScheduled_of_idle (iso : Isolate)
    (h : iso.minor_gc_job.current_task_id_ = kInvalidTaskId) :
    CancelTaskIfScheduled iso = iso := by
  unfold CancelTaskIfScheduled
  simp [h]

/-- On a state with a recorded task `CancelTaskIfScheduled` asks the registry to
abort it and clears the id. -/
theorem CancelTaskIfScheduled_of_scheduled (iso : Isolate)
    (h : iso.minor_gc_job.current_task_id_ ≠ kInvalidTaskId) :
    CancelTaskIfScheduled iso =
      { iso with
        cancelable_task_manager :=
          (iso.cancelable_task_manager.TryAbort iso.minor_gc_job.current_task_id_).2
        minor_gc_job := { iso.minor_gc_job with current_task_id_ := kInvalidTaskId } } := by
  unfold CancelTaskIfScheduled
  simp [h]

/-- Whatever its outcome, `TryAbort` records exactly one request, for the id it
was given. -/
theorem TryAbort_calls (m : CancelableTaskManager) (id : TaskId) :
    (m.TryAbort id).2.try_abort_calls = m.try_abort_calls ++ [id] := by
  unfold CancelableTaskManager.TryAbort
  split_ifs <;> rfl

/-- The tasks that can still be aborted after `TryAbort`: the one asked for is
gone, the others stay. -/
theorem TryAbort_cancelable_tasks (m : CancelableTaskManager) (id : TaskId) :
    (m.TryAbort id).2.cancelable_tasks = m.cancelable_tasks.filter (fun i => i != id) := by
  unfold CancelableTaskManager.TryAbort
  by_cases h : m.cancelable_tasks.contains id = true
  · rw [if_pos h]
  · have hnot : id ∉ m.cancelable_tasks := by simpa using h
    have hfilter : m.cancelable_tasks.filter (fun i => i != id) = m.cancelable_tasks := by
      rw [List.filter_eq_self]
      intro a ha
      have : a ≠ id := fun hEq => hnot (hEq ▸ ha)
      simpa using this
    rw [hfilter]
    split_ifs <;> rfl

/-- Without calls from other code, `ScheduleTaskDuring` is `ScheduleTask`. -/
theorem ScheduleTaskDuring_nil (iso : Isolate) (task_id : TaskId) :
    ScheduleTaskDuring iso task_id [] = ScheduleTask iso task_id := rfl

/-- When every guard lets the call through, `ScheduleTaskDuring` registers the
task and writes its id, other code makes its calls, and the task is posted. -/
theorem ScheduleTaskDuring_of_idle (iso : Isolate) (task_id : TaskId)
    (at_post : List JobCall)
    (hidle : iso.minor_gc_job.current_task_id_ = kInvalidTaskId)
    (hflag : iso.v8_flags.minor_gc_task = true)
    (hheap : iso.heap.is_tearing_down = false)
    (hrunner : iso.foreground_task_runner.non_nestable_tasks_enabled = true) :
    ScheduleTaskDuring iso task_id at_post =
      { at_post.foldl JobCall.apply (ScheduleTask_beforePost iso task_id) with
        foreground_task_runner :=
          (at_post.foldl JobCall.apply
            (ScheduleTask_beforePost iso task_id)).foreground_task_runner.PostNonNestableTask
            { id := task_id } } := by
  unfold ScheduleTaskDuring
  simp [hidle, hflag, hheap, hrunner]

/-- C6. Successful scheduling: for every state with no recorded task, with
`minor_gc_task` on, the heap not tearing down and a runner whose non-nestable
tasks are enabled, `ScheduleTask` constructs exactly one task (the registry
registers exactly the id it assigns), posts exactly that task on the
non-nestable queue and leaves `current_task_id_` equal to the id of the posted
task; flags and heap are unchanged. The id is written before the post: other
code that calls into the job at the moment the task is handed to the runner
finds the id already recorded. For a valid id (with the sentinel as id the
write changes nothing, and no order can be observed), a `ScheduleTask` issued at
that moment is a no-op, so still exactly one task is posted, and a
`CancelTaskIfScheduled` issued at that moment asks for the abort of exactly the
new task. -/
theorem C6_schedule_task_posts (iso : Isolate) (task_id : TaskId)
    (hidle : iso.minor_gc_job.current_task_id_ = kInvalidTaskId)
    (hflag : iso.v8_flags.minor_gc_task = true)
    (hheap : iso.heap.is_tearing_down = false)
    (hrunner : iso.foreground_task_runner.non_nestable_tasks_enabled = true) :
    (ScheduleTask iso task_id).cancelable_task_manager.cancelable_tasks =
        task_id :: iso.cancelable_task_manager.cancelable_tasks ∧
    (ScheduleTask iso task_id).foreground_task_runner.non_nestable_tasks =
        iso.foreground_task_runner.non_nestable_tasks ++ [{ id := task_id }] ∧
    (ScheduleTask iso task_id).minor_gc_job.current_task_id_ = task_id ∧
    (ScheduleTask iso task_id).v8_flags = iso.v8_flags ∧
    (ScheduleTask iso task_id).heap = iso.heap ∧
    ScheduleTaskDuring iso task_id [] = ScheduleTask iso task_id ∧
    (task_id ≠ kInvalidTaskId →
      (∀ other_id : TaskId,
        ScheduleTaskDuring iso task_id [JobCall.schedule other_id] =
          ScheduleTask iso task_id) ∧
      (ScheduleTaskDuring iso task_id
          [JobCall.cancel]).cancelable_task_manager.try_abort_calls =
        iso.cancelable_task_manager.try_abort_calls ++ [task_id]) := by
  have hfull := ScheduleTask_of_idle iso task_id hidle hflag hheap hrunner
  refine ⟨?_, ?_, ?_, ?_, ?_, rfl, ?_⟩
  · rw [hfull]
    rfl
  · rw [hfull]
    rfl
  · rw [hfull]
    rfl
  · rw [hfull]
    rfl
  · rw [hfull]
    rfl
  · intro hvalid
    have hcur : (ScheduleTask_beforePost iso task_id).minor_gc_job.current_task_id_ ≠
        kInvalidTaskId := hvalid
    constructor
    · intro other_id
      rw [ScheduleTaskDuring_of_idle iso task_id _ hidle hflag hheap hrunner, hfull]
      simp only [List.foldl_cons, List.foldl_nil, JobCall.apply]
      rw [ScheduleTask_of_scheduled _ other_id hcur]
    · rw [ScheduleTaskDuring_of_idle iso task_id _ hidle hflag hheap hrunner]
      simp only [List.foldl_cons, List.foldl_nil, JobCall.apply]
      rw [CancelTaskIfScheduled_of_scheduled _ hcur]
      simp only [TryAbort_calls]
      rfl

/-- C6 at a concrete state: scheduling from `idleIsolate` with the id 7; a
second `ScheduleTask`, offered the id 8 at the moment of the post, changes
nothing. -/
theorem C6_schedule_task_posts_witness :
    (ScheduleTask idleIsolate 7).cancelable_task_manager.cancelable_tasks = [7] ∧
    (ScheduleTask idleIsolate 7).foreground_task_runner.non_nestable_tasks = [{ id := 7 }] ∧
    (ScheduleTask idleIsolate 7).minor_gc_job.current_task_id_ = 7 ∧
    (ScheduleTaskDuring idleIsolate 7
      [JobCall.schedule 8]).foreground_task_runner.non_nestable_tasks = [{ id := 7 }] := by
  have h := C6_schedule_task_posts idleIsolate 7 rfl rfl rfl rfl
  refine ⟨h.1, h.2.1, h.2.2.1, ?_⟩
  rw [(h.2.2.2.2.2.2 (by decide)).1 8]
  exact h.2.1

/-- C7. For every state in which `current_task_id_` is not `kInvalidTaskId`, and
whatever the flags, the tear-down flag and the runner are, `ScheduleTask` is a
no-op: the whole state is unchanged, so `current_task_id_` keeps its value, no
id is drawn from the registry and nothing is posted. -/
theorem C7_schedule_task_when_scheduled (iso : Isolate) (task_id : TaskId)
    (h : iso.minor_gc_job.current_task_id_ ≠ kInvalidTaskId) :
    ScheduleTask iso task_id = iso ∧
    (ScheduleTask iso task_id).minor_gc_job.current_task_id_ =
      iso.minor_gc_job.current_task_id_ ∧
    (ScheduleTask iso task_id).cancelable_task_manager = iso.cancelable_task_manager ∧
    (ScheduleTask iso task_id).foreground_task_runner = iso.foreground_task_runner := by
  rw [ScheduleTask_of_scheduled iso task_id h]
  exact ⟨rfl, rfl, rfl, rfl⟩

/-- C7 at a concrete state: a second call after a first one that scheduled the
task 7, offered the id 8. -/
theorem C7_schedule_task_when_scheduled_witness :
    ScheduleTask (ScheduleTask idleIsolate 7) 8 = ScheduleTask idleIsolate 7 :=
  (C7_schedule_task_when_scheduled (ScheduleTask idleIsolate 7) 8 (by decide)).1

/-- C8. `CancelTaskIfScheduled` always ends with `current_task_id_` equal to
`kInvalidTaskId`, in every registry state and so whatever `TryAbort` returns
(aborted, running or removed; each of the three outcomes occurs). It issues an
abort request if and only if `current_task_id_` was not the sentinel on entry,
and then exactly one, for exactly that id; with the sentinel on entry it changes
nothing. Runner, heap and flags are never touched. -/
theorem C8_cancel_task_if_scheduled :
    (∀ iso : Isolate,
      (CancelTaskIfScheduled iso).minor_gc_job.current_task_id_ = kInvalidTaskId ∧
      (CancelTaskIfScheduled iso).cancelable_task_manager.try_abort_calls =
        (if iso.minor_gc_job.current_task_id_ = kInvalidTaskId then
          iso.cancelable_task_manager.try_abort_calls
        else
          iso.cancelable_task_manager.try_abort_calls ++
            [iso.minor_gc_job.current_task_id_]) ∧
      (iso.minor_gc_job.current_task_id_ = kInvalidTaskId →
        CancelTaskIfScheduled iso = iso) ∧
      (CancelTaskIfScheduled iso).foreground_task_runner = iso.foreground_task_runner ∧
      (CancelTaskIfScheduled iso).heap = iso.heap ∧
      (CancelTaskIfScheduled iso).v8_flags = iso.v8_flags) ∧
    (∀ r : TryAbortResult, ∃ iso : Isolate,
      iso.minor_gc_job.current_task_id_ ≠ kInvalidTaskId ∧
      (iso.cancelable_task_manager.TryAbort iso.minor_gc_job.current_task_id_).1 = r ∧
      (CancelTaskIfScheduled iso).minor_gc_job.current_task_id_ = kInvalidTaskId) := by
  constructor
  · intro iso
    by_cases h : iso.minor_gc_job.current_task_id_ = kInvalidTaskId
    · rw [CancelTaskIfScheduled_of_idle iso h]
      simp [h]
    · rw [CancelTaskIfScheduled_of_scheduled iso h]
      simp [h, TryAbort_calls]
  · intro r
    cases r
    · exact ⟨{ idleIsolate with minor_gc_job := { current_task_id_ := 7 } },
        by decide, by decide, by decide⟩
    · exact ⟨{ idleIsolate with
          minor_gc_job := { current_task_id_ := 7 }
          cancelable_task_manager :=
            { cancelable_tasks := [], running_tasks := [7], try_abort_calls := [] } },
        by decide, by decide, by decide⟩
    · exact ⟨{ idleIsolate with
          minor_gc_job := { current_task_id_ := 7 }
          cancelable_task_manager :=
            { cancelable_tasks := [7], running_tasks := [], try_abort_calls := [] } },
        by decide, by decide, by decide⟩

/-- C2. For every `n ≥ 1` and every `n` consecutive `ScheduleTask` calls (the
registry offering the ids `ids`, none of them `kInvalidTaskId`) from a state
with no recorded task, `minor_gc_task` on, the heap not tearing down and a
runner with non-nestable tasks enabled: exactly one task is posted, the one of
the first call, and every call after the first changes nothing at all (no id is
registered, nothing is posted, `current_task_id_` is unchanged). -/
theorem C2_schedule_task_idempotent (iso : Isolate) (n : Nat) (ids : List TaskId)
    (hn : 1 ≤ n) (hlen : ids.length = n)
    (hids : ∀ id ∈ ids, id ≠ kInvalidTaskId)
    (hidle : iso.minor_gc_job.current_task_id_ = kInvalidTaskId)
    (hflag : iso.v8_flags.minor_gc_task = true)
    (hheap : iso.heap.is_tearing_down = false)
    (hrunner : iso.foreground_task_runner.non_nestable_tasks_enabled = true) :
    ∃ first : TaskId, ids.head? = some first ∧
      (ids.foldl ScheduleTask iso).foreground_task_runner.non_nestable_tasks =
        iso.foreground_task_runner.non_nestable_tasks ++ [{ id := first }] ∧
      (ids.foldl ScheduleTask iso).cancelable_task_manager.cancelable_tasks =
        first :: iso.cancelable_task_manager.cancelable_tasks ∧
      (ids.foldl ScheduleTask iso).minor_gc_job.current_task_id_ = first ∧
      ∀ j : Nat, 1 ≤ j → j < n →
        (ids.take (j + 1)).foldl ScheduleTask iso = (ids.take j).foldl ScheduleTask iso := by
  cases ids with
  | nil =>
    simp at hlen
    omega
  | cons first rest =>
    have hfirst : first ≠ kInvalidTaskId := hids first (List.mem_cons_self first rest)
    have hstep := ScheduleTask_of_idle iso first hidle hflag hheap hrunner
    have hcur : (ScheduleTask iso first).minor_gc_job.current_task_id_ ≠ kInvalidTaskId := by
      rw [hstep]
      simpa [ScheduleTask_beforePost] using hfirst
    have hall : ∀ l : List TaskId, (first :: l).foldl ScheduleTask iso = ScheduleTask iso first :=
      fun l => by
        rw [List.foldl_cons]
        exact foldl_ScheduleTask_of_scheduled l _ hcur
    refine ⟨first, rfl, ?_, ?_, ?_, ?_⟩
    · rw [hall, hstep]
      simp [ScheduleTask_beforePost, TaskRunner.PostNonNestableTask]
    · rw [hall, hstep]
      simp [ScheduleTask_beforePost, CancelableTaskManager.Register]
    · rw [hall, hstep]
      simp [ScheduleTask_beforePost]
    · intro j hj _
      obtain ⟨k, rfl⟩ : ∃ k, j = k + 1 := ⟨j - 1, by omega⟩
      rw [List.take_succ_cons, List.take_succ_cons, hall, hall]

/-- C2 at a concrete case: three calls from `idleIsolate`, the registry offering
the ids 7, 8 and 9, post the single task 7. -/
theorem C2_schedule_task_idempotent_witness :
    ([7, 8, 9].foldl ScheduleTask idleIsolate).foreground_task_runner.non_nestable_tasks =
        [{ id := 7 }] ∧
    ([7, 8, 9].foldl ScheduleTask idleIsolate).minor_gc_job.current_task_id_ = 7 ∧
    [7, 8, 9].foldl ScheduleTask idleIsolate = [7, 8].foldl ScheduleTask idleIsolate := by
  obtain ⟨first, hhead, hq, _, hc, hnoop⟩ :=
    C2_schedule_task_idempotent idleIsolate 3 [7, 8, 9] (by decide) rfl (by decide)
      rfl rfl rfl rfl
  have hf : first = 7 := by
    simp at hhead
    exact hhead.symm
  subst hf
  exact ⟨hq, hc, hnoop 2 (by decide) (by decide)⟩

/-- C9. Cancellation re-opens scheduling: with `minor_gc_task` on, the heap not
tearing down and a runner with non-nestable tasks enabled, for every state with
no recorded task, after `ScheduleTask` followed immediately by
`CancelTaskIfScheduled` the job reports no outstanding task, and a subsequent
`ScheduleTask` posts a new task whose id is then stored in `current_task_id_`;
the sequence posts two tasks in total, and the first of them was the target of
the one abort request, which aborted it. The id `id1` of the first task is one
that the registry issues under its contract (`FreshTaskId`), of which only the
part that it is a valid id, not the sentinel, is used. -/
theorem C9_cancel_then_schedule (iso : Isolate) (id1 id2 : TaskId)
    (hid1 : id1 ≠ kInvalidTaskId)
    (hidle : iso.minor_gc_job.current_task_id_ = kInvalidTaskId)
    (hflag : iso.v8_flags.minor_gc_task = true)
    (hheap : iso.heap.is_tearing_down = false)
    (hrunner : iso.foreground_task_runner.non_nestable_tasks_enabled = true) :
    (CancelTaskIfScheduled (ScheduleTask iso id1)).minor_gc_job.current_task_id_ =
      kInvalidTaskId ∧
    (ScheduleTask (CancelTaskIfScheduled (ScheduleTask iso id1))
        id2).foreground_task_runner.non_nestable_tasks =
      iso.foreground_task_runner.non_nestable_tasks ++ [{ id := id1 }, { id := id2 }] ∧
    (ScheduleTask (CancelTaskIfScheduled (ScheduleTask iso id1))
        id2).minor_gc_job.current_task_id_ = id2 ∧
    (ScheduleTask (CancelTaskIfScheduled (ScheduleTask iso id1))
        id2).cancelable_task_manager.try_abort_calls =
      iso.cancelable_task_manager.try_abort_calls ++ [id1] ∧
    ((ScheduleTask iso id1).cancelable_task_manager.TryAbort id1).1 =
      TryAbortResult.kTaskAborted ∧
    id1 ∉ (CancelTaskIfScheduled
      (ScheduleTask iso id1)).cancelable_task_manager.cancelable_tasks := by
  have h1 := ScheduleTask_of_idle iso id1 hidle hflag hheap hrunner
  have hcur1 : (ScheduleTask iso id1).minor_gc_job.current_task_id_ = id1 := by
    rw [h1]
    rfl
  have hne : (ScheduleTask iso id1).minor_gc_job.current_task_id_ ≠ kInvalidTaskId := by
    rw [hcur1]
    exact hid1
  have h2 := CancelTaskIfScheduled_of_scheduled (ScheduleTask iso id1) hne
  rw [hcur1] at h2
  have hidle2 : (CancelTaskIfScheduled (ScheduleTask iso id1)).minor_gc_job.current_task_id_ =
      kInvalidTaskId := by
    rw [h2]
  have hflag2 : (CancelTaskIfScheduled (ScheduleTask iso id1)).v8_flags.minor_gc_task = true := by
    rw [h2, h1]
    exact hflag
  have hheap2 : (CancelTaskIfScheduled (ScheduleTask iso id1)).heap.is_tearing_down = false := by
    rw [h2, h1]
    exact hheap
  have hrunner2 : (CancelTaskIfScheduled
      (ScheduleTask iso id1)).foreground_task_runner.non_nestable_tasks_enabled = true := by
    rw [h2, h1]
    exact hrunner
  have h3 := ScheduleTask_of_idle (CancelTaskIfScheduled (ScheduleTask iso id1)) id2
    hidle2 hflag2 hheap2 hrunner2
  refine ⟨hidle2, ?_, ?_, ?_, ?_, ?_⟩
  · rw [h3, h2, h1]
    simp [ScheduleTask_beforePost, TaskRunner.PostNonNestableTask]
  · rw [h3]
    rfl
  · rw [h3, h2]
    simp only [ScheduleTask_beforePost, CancelableTaskManager.Register, TryAbort_calls]
    rw [h1]
    rfl
  · rw [h1]
    simp [ScheduleTask_beforePost, CancelableTaskManager.Register,
      CancelableTaskManager.TryAbort]
  · rw [h2]
    simp [TryAbort_cancelable_tasks]

/-- C9 at a concrete case: from `idleIsolate`, schedule the task 7,
cancel, schedule the task 8. -/
theorem C9_cancel_then_schedule_witness :
    (ScheduleTask (CancelTaskIfScheduled (ScheduleTask idleIsolate 7))
        8).foreground_task_runner.non_nestable_tasks = [{ id := 7 }, { id := 8 }] ∧
    (ScheduleTask (CancelTaskIfScheduled (ScheduleTask idleIsolate 7))
        8).minor_gc_job.current_task_id_ = 8 ∧
    (ScheduleTask (CancelTaskIfScheduled (ScheduleTask idleIsolate 7))
        8).cancelable_task_manager.try_abort_calls = [7] := by
  have h := C9_cancel_then_schedule idleIsolate 7 8 (by decide) rfl rfl rfl rfl
  exact ⟨h.2.1, h.2.2.1, h.2.2.2.1⟩

/-! ## `Task::RunInternal` -/

/-- Running `RunInternal` of the task whose id the job records gets past the `DCHECK`. -/
theorem RunInternal_dcheck_of_eq (iso : Isolate) (id : TaskId)
    (h : iso.minor_gc_job.current_task_id_ = id) : RunInternal_dcheck iso id = true := by
  unfold RunInternal_dcheck
  simp [h]

/-- C10. Run-time veto: for every state in which a posted task runs with the
job's `current_task_id_` equal to its own id, if `separate_gc_phases` is set and
major incremental marking is active, `RunInternal` returns without calling
`CollectGarbage` (the heap, with its record of collection calls, is unchanged),
leaves `current_task_id_` equal to `kInvalidTaskId`, and a `ScheduleTask` issued
immediately afterwards (feature on, heap not tearing down, runner with
non-nestable tasks enabled) posts a new task and records its id. -/
theorem C10_run_internal_veto (iso : Isolate) (id new_id : TaskId)
    (hid : iso.minor_gc_job.current_task_id_ = id)
    (hphases : iso.v8_flags.separate_gc_phases = true)
    (hmarking : iso.heap.is_major_marking = true)
    (hflag : iso.v8_flags.minor_gc_task = true)
    (hheap : iso.heap.is_tearing_down = false)
    (hrunner : iso.foreground_task_runner.non_nestable_tasks_enabled = true) :
    ∃ after : Isolate, RunInternal iso id = some after ∧
      after.heap = iso.heap ∧
      after.heap.collect_garbage_calls = iso.heap.collect_garbage_calls ∧
      after.minor_gc_job.current_task_id_ = kInvalidTaskId ∧
      (ScheduleTask after new_id).foreground_task_runner.non_nestable_tasks =
        after.foreground_task_runner.non_nestable_tasks ++ [{ id := new_id }] ∧
      (ScheduleTask after new_id).cancelable_task_manager.cancelable_tasks =
        new_id :: after.cancelable_task_manager.cancelable_tasks ∧
      (ScheduleTask after new_id).minor_gc_job.current_task_id_ = new_id := by
  refine ⟨RunInternal_afterClear iso, ?_, rfl, rfl, rfl, ?_⟩
  · unfold RunInternal
    simp [RunInternal_dcheck_of_eq iso id hid, RunInternal_veto, RunInternal_afterClear,
      hphases, hmarking]
  · rw [ScheduleTask_of_idle (RunInternal_afterClear iso) new_id rfl hflag hheap hrunner]
    simp [ScheduleTask_beforePost, CancelableTaskManager.Register,
      TaskRunner.PostNonNestableTask]

/-- C10 at a concrete case: the task 7, scheduled from `idleIsolate`, runs while
major incremental marking is active; no collection is recorded and the task 8
can be scheduled at once. -/
theorem C10_run_internal_veto_witness :
    ∃ after : Isolate,
      RunInternal
        { ScheduleTask idleIsolate 7 with
          heap := { idleIsolate.heap with is_major_marking := true } } 7 = some after ∧
      after.heap.collect_garbage_calls = [] ∧
      after.minor_gc_job.current_task_id_ = kInvalidTaskId ∧
      (ScheduleTask after 8).minor_gc_job.current_task_id_ = 8 := by
  obtain ⟨after, hrun, _, hcalls, hcur, _, _, hnew⟩ :=
    C10_run_internal_veto
      { ScheduleTask idleIsolate 7 with
        heap := { idleIsolate.heap with is_major_marking := true } } 7 8
      (by decide) (by decide) rfl (by decide) rfl (by decide)
  exact ⟨after, hrun, hcalls, hcur, hnew⟩

/-! ## The at-most-one-outstanding invariant -/

/-- Removing an id from the registry removes the tasks with that id from the
outstanding ones. -/
theorem filter_contains_filter (q : List Task) (W : List TaskId) (c : TaskId) :
    q.filter (fun t => (W.filter (fun i => i != c)).contains t.id) =
      (q.filter (fun t => W.contains t.id)).filter (fun t => t.id != c) := by
  rw [List.filter_filter]
  apply List.filter_congr
  intro t _
  by_cases h1 : t.id ∈ W <;> by_cases h2 : t.id = c <;> simp [h1, h2]

/-- The invariant holds in every initial state. -/
theorem SchedulingInvariant_of_initial (iso : Isolate) (h : Initial iso) :
    SchedulingInvariant iso := by
  obtain ⟨hcur, hq⟩ := h
  constructor
  · intro _
    simp [OutstandingTasks, hq]
  · intro hne
    exact absurd hcur hne

/-- A call of `ScheduleTask` with a fresh id preserves the invariant. -/
theorem SchedulingInvariant_ScheduleTask (iso : Isolate) (id : TaskId)
    (hfresh : FreshTaskId iso id) (hinv : SchedulingInvariant iso) :
    SchedulingInvariant (ScheduleTask iso id) := by
  rcases ScheduleTask_cases iso id with hsame | ⟨hidle, hfull⟩
  · rw [hsame]
    exact hinv
  · obtain ⟨hvalid, _, _, hqueue⟩ := hfresh
    have hnone := hinv.1 hidle
    have hout : OutstandingTasks (ScheduleTask iso id) = [{ id := id }] := by
      rw [hfull]
      simp only [OutstandingTasks, ScheduleTask_beforePost, CancelableTaskManager.Register,
        TaskRunner.PostNonNestableTask, List.filter_append]
      have hold : iso.foreground_task_runner.non_nestable_tasks.filter
          (fun t => (id :: iso.cancelable_task_manager.cancelable_tasks).contains t.id) =
          iso.foreground_task_runner.non_nestable_tasks.filter
            (fun t => iso.cancelable_task_manager.cancelable_tasks.contains t.id) := by
        apply List.filter_congr
        intro t ht
        have := hqueue t ht
        simp [this]
      rw [hold]
      simp only [OutstandingTasks] at hnone
      rw [hnone]
      simp
    have hcur : (ScheduleTask iso id).minor_gc_job.current_task_id_ = id := by
      rw [hfull]
      rfl
    constructor
    · intro h
      rw [hcur] at h
      exact absurd h hvalid
    · intro _
      rw [hcur]
      exact hout

/-- A call of `CancelTaskIfScheduled` preserves the invariant: the abort of the recorded
task succeeds, since that task has not started. -/
theorem SchedulingInvariant_CancelTaskIfScheduled (iso : Isolate)
    (hinv : SchedulingInvariant iso) : SchedulingInvariant (CancelTaskIfScheduled iso) := by
  by_cases hidle : iso.minor_gc_job.current_task_id_ = kInvalidTaskId
  · rw [CancelTaskIfScheduled_of_idle iso hidle]
    exact hinv
  · have hone := hinv.2 hidle
    have hout : OutstandingTasks (CancelTaskIfScheduled iso) = [] := by
      rw [CancelTaskIfScheduled_of_scheduled iso hidle]
      simp only [OutstandingTasks, TryAbort_cancelable_tasks]
      rw [filter_contains_filter]
      simp only [OutstandingTasks] at hone
      rw [hone]
      simp
    have hcur : (CancelTaskIfScheduled iso).minor_gc_job.current_task_id_ = kInvalidTaskId := by
      rw [CancelTaskIfScheduled_of_scheduled iso hidle]
    constructor
    · intro _
      exact hout
    · intro h
      exact absurd hcur h

/-- Running `RunInternal` changes neither the runner nor the registry, and clears the
recorded id. -/
theorem RunInternal_frame (iso after : Isolate) (id : TaskId)
    (h : RunInternal iso id = some after) :
    after.foreground_task_runner = iso.foreground_task_runner ∧
    after.cancelable_task_manager = iso.cancelable_task_manager ∧
    after.minor_gc_job.current_task_id_ = kInvalidTaskId := by
  unfold RunInternal at h
  by_cases hcheck : RunInternal_dcheck iso id = true
  · by_cases hveto : RunInternal_veto (RunInternal_afterClear iso) = true
    · simp only [hcheck, hveto, Bool.not_true, Bool.false_eq_true, if_false, if_true,
        Option.some.injEq] at h
      subst h
      exact ⟨rfl, rfl, rfl⟩
    · simp only [hcheck, hveto, Bool.not_true, Bool.false_eq_true, if_false,
        Option.some.injEq] at h
      subst h
      exact ⟨rfl, rfl, rfl⟩
  · simp [hcheck] at h

/-- The runner taking the task at the head of its queue preserves the
invariant. -/
theorem SchedulingInvariant_RunNextTask (iso next : Isolate)
    (hrun : RunNextTask iso = some next) (hinv : SchedulingInvariant iso) :
    SchedulingInvariant next := by
  unfold RunNextTask at hrun
  cases hq : iso.foreground_task_runner.non_nestable_tasks with
  | nil =>
    rw [hq] at hrun
    cases hrun
  | cons task rest =>
    rw [hq] at hrun
    simp only at hrun
    unfold Task.Run at hrun
    by_cases hreg : iso.cancelable_task_manager.cancelable_tasks.contains task.id = true
    · simp only [hreg, if_true] at hrun
      -- the task starts: it was the one outstanding task
      have hhead : OutstandingTasks iso =
          task :: rest.filter
            (fun t => iso.cancelable_task_manager.cancelable_tasks.contains t.id) := by
        simp only [OutstandingTasks, hq, List.filter_cons, hreg, if_true]
      have hidle : iso.minor_gc_job.current_task_id_ ≠ kInvalidTaskId := by
        intro h
        rw [hinv.1 h] at hhead
        cases hhead
      have hrest : rest.filter
          (fun t => iso.cancelable_task_manager.cancelable_tasks.contains t.id) = [] := by
        have := hinv.2 hidle
        rw [hhead] at this
        exact (List.cons.inj this).2
      split at hrun
      · cases hrun
      · rename_i done hdone
        cases hrun
        obtain ⟨hr, hm, hc⟩ := RunInternal_frame _ _ _ hdone
        have hout : OutstandingTasks
            { done with
              cancelable_task_manager :=
                { done.cancelable_task_manager with
                  running_tasks :=
                    done.cancelable_task_manager.running_tasks.filter
                      (fun i => i != task.id) } } = [] := by
          simp only [OutstandingTasks, hr, hm]
          rw [filter_contains_filter, hrest]
          rfl
        constructor
        · intro _
          exact hout
        · intro h
          exact absurd hc h
    · simp only [hreg] at hrun
      cases hrun
      have hout : OutstandingTasks
          { iso with
            foreground_task_runner :=
              { iso.foreground_task_runner with non_nestable_tasks := rest } } =
          OutstandingTasks iso := by
        simp only [OutstandingTasks, hq, List.filter_cons, hreg, Bool.false_eq_true, if_false]
      constructor
      · intro h
        rw [hout]
        exact hinv.1 h
      · intro h
        rw [hout]
        exact hinv.2 h

/-- Every step of the system preserves the invariant. -/
theorem SchedulingInvariant_step (iso next : Isolate) (hstep : Step iso next)
    (hinv : SchedulingInvariant iso) : SchedulingInvariant next := by
  cases hstep with
  | schedule id hfresh => exact SchedulingInvariant_ScheduleTask iso id hfresh hinv
  | cancel => exact SchedulingInvariant_CancelTaskIfScheduled iso hinv
  | run _ hrun => exact SchedulingInvariant_RunNextTask iso next hrun hinv
  | surroundings _ hjob hqueue hmanager =>
    have hout : OutstandingTasks next = OutstandingTasks iso := by
      simp only [OutstandingTasks, hqueue, hmanager]
    constructor
    · intro h
      rw [hout]
      exact hinv.1 (hjob ▸ h)
    · intro h
      rw [hout, hjob]
      exact hinv.2 (hjob ▸ h)

/-- The invariant holds in every reachable state. -/
theorem SchedulingInvariant_of_reachable (iso : Isolate) (h : Reachable iso) :
    SchedulingInvariant iso := by
  induction h with
  | init iso hinit => exact SchedulingInvariant_of_initial iso hinit
  | step iso next _ hstep ih => exact SchedulingInvariant_step iso next hstep ih

/-- C1. At-most-one-outstanding invariant. In every state reachable from an
initial state (`current_task_id_ = kInvalidTaskId`, empty queue) by
`ScheduleTask`, `CancelTaskIfScheduled` and the runner starting the task at the
head of its queue, with a registry that issues valid unused ids and aborts any
task that has not started: at most one task of the job is outstanding (posted,
not started, not aborted); `current_task_id_` is not the sentinel only if an
outstanding task with exactly that id exists (it is then the only one); and when
`current_task_id_` is the sentinel no task is outstanding. -/
theorem C1_at_most_one_outstanding (iso : Isolate) (h : Reachable iso) :
    (OutstandingTasks iso).length ≤ 1 ∧
    (iso.minor_gc_job.current_task_id_ ≠ kInvalidTaskId →
      (∃ t ∈ OutstandingTasks iso, t.id = iso.minor_gc_job.current_task_id_) ∧
      OutstandingTasks iso = [{ id := iso.minor_gc_job.current_task_id_ }]) ∧
    (iso.minor_gc_job.current_task_id_ = kInvalidTaskId → OutstandingTasks iso = []) := by
  have hinv := SchedulingInvariant_of_reachable iso h
  refine ⟨?_, ?_, hinv.1⟩
  · by_cases hc : iso.minor_gc_job.current_task_id_ = kInvalidTaskId
    · rw [hinv.1 hc]
      simp
    · rw [hinv.2 hc]
      simp
  · intro hc
    rw [hinv.2 hc]
    simp

/-- The runner's steps are enabled in the model: after the task 7 is scheduled
and cancelled and the task 8 is scheduled, the runner first discards the aborted
task 7 and then starts the task 8, which clears the recorded id and collects
the young generation once. -/
theorem RunNextTask_trace_example :
    (((RunNextTask (ScheduleTask (CancelTaskIfScheduled (ScheduleTask idleIsolate 7)) 8)).bind
        RunNextTask).map
      (fun iso => (iso.minor_gc_job.current_task_id_, iso.heap.collect_garbage_calls,
        iso.foreground_task_runner.non_nestable_tasks,
        iso.cancelable_task_manager.cancelable_tasks))) =
      some (kInvalidTaskId,
        [(AllocationSpace.NEW_SPACE, GarbageCollectionReason.kTask)], [], []) := by
  decide

/-- C1 at a concrete reachable state: from `idleIsolate`, the task 7 is
scheduled and cancelled and the task 8 is scheduled. The runner then holds both
tasks, and the only outstanding one is the task 8 that the job records. -/
theorem C1_at_most_one_outstanding_witness :
    Reachable (ScheduleTask (CancelTaskIfScheduled (ScheduleTask idleIsolate 7)) 8) ∧
    (ScheduleTask (CancelTaskIfScheduled (ScheduleTask idleIsolate 7))
      8).foreground_task_runner.non_nestable_tasks = [{ id := 7 }, { id := 8 }] ∧
    (OutstandingTasks
      (ScheduleTask (CancelTaskIfScheduled (ScheduleTask idleIsolate 7)) 8)).length ≤ 1 ∧
    OutstandingTasks (ScheduleTask (CancelTaskIfScheduled (ScheduleTask idleIsolate 7)) 8) =
      [{ id := 8 }] := by
  have h0 : Reachable idleIsolate := Reachable.init idleIsolate (by decide)
  have h1 : Reachable (ScheduleTask idleIsolate 7) :=
    Reachable.step _ _ h0 (Step.schedule idleIsolate 7 (by decide))
  have h2 : Reachable (CancelTaskIfScheduled (ScheduleTask idleIsolate 7)) :=
    Reachable.step _ _ h1 (Step.cancel _)
  have h3 : Reachable (ScheduleTask (CancelTaskIfScheduled (ScheduleTask idleIsolate 7)) 8) :=
    Reachable.step _ _ h2 (Step.schedule _ 8 (by decide))
  have h := C1_at_most_one_outstanding _ h3
  exact ⟨h3, by decide, h.1, (h.2.1 (by decide)).2⟩

/-! ## The guards of `ScheduleTask` -/

/-- C13. Disabled-feature no-op: with the `minor_gc_task` flag off, for every job
state, every heap state (whether or not the size trigger is reached) and every
runner, `ScheduleTask` returns the state unchanged: no task is posted, none is
constructed (the registry is untouched) and `current_task_id_` keeps its
value. -/
theorem C13_schedule_task_feature_off (iso : Isolate) (task_id : TaskId)
    (hflag : iso.v8_flags.minor_gc_task = false) :
    ScheduleTask iso task_id = iso ∧
    (ScheduleTask iso task_id).foreground_task_runner.non_nestable_tasks =
      iso.foreground_task_runner.non_nestable_tasks ∧
    (ScheduleTask iso task_id).cancelable_task_manager = iso.cancelable_task_manager ∧
    (ScheduleTask iso task_id).minor_gc_job.current_task_id_ =
      iso.minor_gc_job.current_task_id_ := by
  have h : ScheduleTask iso task_id = iso := by
    unfold ScheduleTask
    simp [hflag]
  rw [h]
  exact ⟨rfl, rfl, rfl, rfl⟩

/-- C13 at a concrete state: the idle isolate with the feature switched off and
a new space filled beyond its trigger size. -/
theorem C13_schedule_task_feature_off_witness :
    YoungGenerationSizeTaskTriggerReached
      { idleIsolate.v8_flags with minor_gc_task := false }
      { idleIsolate.heap with new_space := { TotalCapacity := 1000000, Size := 900000 } } =
      true ∧
    ScheduleTask
      { idleIsolate with
        v8_flags := { idleIsolate.v8_flags with minor_gc_task := false }
        heap :=
          { idleIsolate.heap with
            new_space := { TotalCapacity := 1000000, Size := 900000 } } } 7 =
      { idleIsolate with
        v8_flags := { idleIsolate.v8_flags with minor_gc_task := false }
        heap :=
          { idleIsolate.heap with
            new_space := { TotalCapacity := 1000000, Size := 900000 } } } :=
  ⟨by decide, (C13_schedule_task_feature_off _ 7 rfl).1⟩

/-- C14. Teardown suppression: whenever the heap reports `IsTearingDown()`, for
every job state (in particular with `current_task_id_ = kInvalidTaskId` and the
feature on) and every runner, `ScheduleTask` returns the state unchanged: no
task is posted, none is constructed and `current_task_id_` keeps its value. -/
theorem C14_schedule_task_tearing_down (iso : Isolate) (task_id : TaskId)
    (hheap : iso.heap.is_tearing_down = true) :
    ScheduleTask iso task_id = iso ∧
    (ScheduleTask iso task_id).foreground_task_runner.non_nestable_tasks =
      iso.foreground_task_runner.non_nestable_tasks ∧
    (ScheduleTask iso task_id).cancelable_task_manager = iso.cancelable_task_manager ∧
    (ScheduleTask iso task_id).minor_gc_job.current_task_id_ =
      iso.minor_gc_job.current_task_id_ := by
  have h : ScheduleTask iso task_id = iso := by
    unfold ScheduleTask
    simp [hheap]
  rw [h]
  exact ⟨rfl, rfl, rfl, rfl⟩

/-- C14 at a concrete state: the idle isolate (feature on, no recorded task)
with the heap tearing down. -/
theorem C14_schedule_task_tearing_down_witness :
    ({ idleIsolate with
        heap := { idleIsolate.heap with is_tearing_down := true } } :
      Isolate).minor_gc_job.current_task_id_ = kInvalidTaskId ∧
    ScheduleTask
      { idleIsolate with heap := { idleIsolate.heap with is_tearing_down := true } } 7 =
      { idleIsolate with heap := { idleIsolate.heap with is_tearing_down := true } } :=
  ⟨rfl, (C14_schedule_task_tearing_down _ 7 rfl).1⟩

/-- C15. Unsupported runner: when the foreground runner reports that non-nestable
tasks are not enabled, for every job state and flag setting, `ScheduleTask`
returns the state unchanged: no task is constructed, no id is drawn from the
registry, nothing is posted and `current_task_id_` keeps its value (so it stays
`kInvalidTaskId` from an idle state), and a later call is evaluated as if this
one had not happened. -/
theorem C15_schedule_task_runner_unsupported (iso : Isolate) (task_id : TaskId)
    (hrunner : iso.foreground_task_runner.non_nestable_tasks_enabled = false) :
    ScheduleTask iso task_id = iso ∧
    (ScheduleTask iso task_id).foreground_task_runner.non_nestable_tasks =
      iso.foreground_task_runner.non_nestable_tasks ∧
    (ScheduleTask iso task_id).cancelable_task_manager = iso.cancelable_task_manager ∧
    (ScheduleTask iso task_id).minor_gc_job.current_task_id_ =
      iso.minor_gc_job.current_task_id_ ∧
    (iso.minor_gc_job.current_task_id_ = kInvalidTaskId →
      (ScheduleTask iso task_id).minor_gc_job.current_task_id_ = kInvalidTaskId) ∧
    (∀ later_id : TaskId,
      ScheduleTask (ScheduleTask iso task_id) later_id = ScheduleTask iso later_id) := by
  have h : ScheduleTask iso task_id = iso := by
    unfold ScheduleTask
    simp [hrunner]
  rw [h]
  exact ⟨rfl, rfl, rfl, rfl, fun hidle => hidle, fun _ => rfl⟩

/-- C15 at a concrete state: the idle isolate with a runner that does not accept
non-nestable tasks; once the runner accepts them, the next call schedules. -/
theorem C15_schedule_task_runner_unsupported_witness :
    ScheduleTask
      { idleIsolate with
        foreground_task_runner :=
          { non_nestable_tasks_enabled := false, non_nestable_tasks := [] } } 7 =
      { idleIsolate with
        foreground_task_runner :=
          { non_nestable_tasks_enabled := false, non_nestable_tasks := [] } } ∧
    (ScheduleTask idleIsolate 8).minor_gc_job.current_task_id_ = 8 :=
  ⟨(C15_schedule_task_runner_unsupported _ 7 rfl).1, by decide⟩

/-! ## `Task::RunInternal`: collection and ordering -/

/-- Past its `DCHECK`, `RunInternal` clears the recorded id and then either
returns (veto) or calls the collection entry point, both on the cleared
state. -/
theorem RunInternal_of_dcheck (iso : Isolate) (id : TaskId)
    (hcheck : RunInternal_dcheck iso id = true) :
    RunInternal iso id =
      if RunInternal_veto (RunInternal_afterClear iso) then
        some (RunInternal_afterClear iso)
      else
        some { RunInternal_afterClear iso with
          heap := (RunInternal_afterClear iso).heap.CollectGarbage AllocationSpace.NEW_SPACE
            GarbageCollectionReason.kTask } := by
  unfold RunInternal
  simp [hcheck]

/-- The veto looks only at the flags and the heap, which the clearing of the id
leaves alone. -/
theorem RunInternal_veto_afterClear (iso : Isolate) :
    RunInternal_veto (RunInternal_afterClear iso) =
      (iso.v8_flags.separate_gc_phases && iso.heap.is_major_marking) := rfl

/-- C11. For every state in which a posted task runs (its `RunInternal` gets
past the consistency check of line 88: always so when `DCHECK`s are compiled
out, and otherwise when `current_task_id_` is its id): when the veto does not
apply (`separate_gc_phases` is off, or major incremental marking is not active),
`RunInternal` calls the heap's collection entry point exactly once, for
`NEW_SPACE` and with the reason `kTask`; and `RunInternal` performs a collection
if and only if the veto does not apply. -/
theorem C11_run_internal_collects (iso : Isolate) (id : TaskId)
    (hcheck : RunInternal_dcheck iso id = true) :
    ∃ after : Isolate, RunInternal iso id = some after ∧
      ((iso.v8_flags.separate_gc_phases = false ∨ iso.heap.is_major_marking = false) →
        after.heap.collect_garbage_calls =
          iso.heap.collect_garbage_calls ++
            [(AllocationSpace.NEW_SPACE, GarbageCollectionReason.kTask)]) ∧
      (after.heap.collect_garbage_calls ≠ iso.heap.collect_garbage_calls ↔
        (iso.v8_flags.separate_gc_phases = false ∨ iso.heap.is_major_marking = false)) ∧
      (¬ (iso.v8_flags.separate_gc_phases = false ∨ iso.heap.is_major_marking = false) →
        after.heap.collect_garbage_calls = iso.heap.collect_garbage_calls) := by
  rw [RunInternal_of_dcheck iso id hcheck, RunInternal_veto_afterClear]
  cases hphases : iso.v8_flags.separate_gc_phases <;>
    cases hmarking : iso.heap.is_major_marking <;>
    simp [RunInternal_afterClear, Heap.CollectGarbage]

/-- C11 at a concrete state: the task 7, scheduled from `idleIsolate`, runs with
no major marking active and collects the young generation once. -/
theorem C11_run_internal_collects_witness :
    ∃ after : Isolate, RunInternal (ScheduleTask idleIsolate 7) 7 = some after ∧
      after.heap.collect_garbage_calls =
        [(AllocationSpace.NEW_SPACE, GarbageCollectionReason.kTask)] := by
  obtain ⟨after, hrun, hcalls, _, _⟩ :=
    C11_run_internal_collects (ScheduleTask idleIsolate 7) 7 (by decide)
  exact ⟨after, hrun, hcalls (Or.inr (by decide))⟩

/-- Without calls from other code, `RunInternalDuring` is `RunInternal`. -/
theorem RunInternalDuring_nil (iso : Isolate) (id : TaskId) :
    RunInternalDuring iso id [] [] = RunInternal iso id := rfl

/-- Past its `DCHECK`, `RunInternalDuring` clears the recorded id, lets other
code make its calls, checks the veto and, if it does not apply, collects. -/
theorem RunInternalDuring_of_dcheck (iso : Isolate) (id : TaskId)
    (at_veto_check during_collection : List JobCall)
    (hcheck : RunInternal_dcheck iso id = true) :
    RunInternalDuring iso id at_veto_check during_collection =
      if RunInternal_veto (at_veto_check.foldl JobCall.apply (RunInternal_afterClear iso)) then
        some (at_veto_check.foldl JobCall.apply (RunInternal_afterClear iso))
      else
        some (CollectGarbageDuring
          (at_veto_check.foldl JobCall.apply (RunInternal_afterClear iso))
          AllocationSpace.NEW_SPACE GarbageCollectionReason.kTask during_collection) := by
  unfold RunInternalDuring
  simp [hcheck]

/-- C12. Run-time self-clear ordering: in `RunInternal` the write
`current_task_id_ := kInvalidTaskId` precedes both the veto check and the
collection call. So other code that calls into the job at the moment of the veto
check, or while the collection entry point is running, finds that the job
reports no outstanding task: a `ScheduleTask` issued at either moment (feature
on, heap not tearing down, runner with non-nestable tasks enabled) posts a new
task and sets `current_task_id_` to its id, which is still recorded when
`RunInternal` returns, and a `CancelTaskIfScheduled` issued at either moment
finds nothing to abort. -/
theorem C12_clear_precedes_collection (iso : Isolate) (id new_id : TaskId)
    (hcheck : RunInternal_dcheck iso id = true)
    (hflag : iso.v8_flags.minor_gc_task = true)
    (hheap : iso.heap.is_tearing_down = false)
    (hrunner : iso.foreground_task_runner.non_nestable_tasks_enabled = true) :
    RunInternalDuring iso id [] [] = RunInternal iso id ∧
    (∃ after : Isolate,
      RunInternalDuring iso id [JobCall.schedule new_id] [] = some after ∧
      after.foreground_task_runner.non_nestable_tasks =
        iso.foreground_task_runner.non_nestable_tasks ++ [{ id := new_id }] ∧
      after.cancelable_task_manager.cancelable_tasks =
        new_id :: iso.cancelable_task_manager.cancelable_tasks ∧
      after.minor_gc_job.current_task_id_ = new_id) ∧
    (∃ after : Isolate,
      RunInternalDuring iso id [JobCall.cancel] [] = some after ∧
      after.cancelable_task_manager = iso.cancelable_task_manager) ∧
    ((iso.v8_flags.separate_gc_phases = false ∨ iso.heap.is_major_marking = false) →
      (∃ after : Isolate,
        RunInternalDuring iso id [] [JobCall.schedule new_id] = some after ∧
        after.heap.collect_garbage_calls =
          iso.heap.collect_garbage_calls ++
            [(AllocationSpace.NEW_SPACE, GarbageCollectionReason.kTask)] ∧
        after.foreground_task_runner.non_nestable_tasks =
          iso.foreground_task_runner.non_nestable_tasks ++ [{ id := new_id }] ∧
        after.cancelable_task_manager.cancelable_tasks =
          new_id :: iso.cancelable_task_manager.cancelable_tasks ∧
        after.minor_gc_job.current_task_id_ = new_id) ∧
      (∃ after : Isolate,
        RunInternalDuring iso id [] [JobCall.cancel] = some after ∧
        after.cancelable_task_manager = iso.cancelable_task_manager)) := by
  have hschedule := ScheduleTask_of_idle (RunInternal_afterClear iso) new_id rfl hflag hheap hrunner
  have hcancel := CancelTaskIfScheduled_of_idle (RunInternal_afterClear iso) rfl
  refine ⟨rfl, ?_, ?_, ?_⟩
  · rw [RunInternalDuring_of_dcheck iso id _ _ hcheck]
    simp only [List.foldl_cons, List.foldl_nil, JobCall.apply, CollectGarbageDuring]
    rw [hschedule]
    split_ifs
    · exact ⟨_, rfl, rfl, rfl, rfl⟩
    · exact ⟨_, rfl, rfl, rfl, rfl⟩
  · rw [RunInternalDuring_of_dcheck iso id _ _ hcheck]
    simp only [List.foldl_cons, List.foldl_nil, JobCall.apply, CollectGarbageDuring]
    rw [hcancel]
    split_ifs
    · exact ⟨_, rfl, rfl⟩
    · exact ⟨_, rfl, rfl⟩
  · intro hnoveto
    have hveto : RunInternal_veto (RunInternal_afterClear iso) = false := by
      rw [RunInternal_veto_afterClear]
      rcases hnoveto with h | h <;> simp [h]
    have hschedule2 := ScheduleTask_of_idle
      { RunInternal_afterClear iso with
        heap := (RunInternal_afterClear iso).heap.CollectGarbage AllocationSpace.NEW_SPACE
          GarbageCollectionReason.kTask } new_id rfl hflag hheap hrunner
    have hcancel2 := CancelTaskIfScheduled_of_idle
      { RunInternal_afterClear iso with
        heap := (RunInternal_afterClear iso).heap.CollectGarbage AllocationSpace.NEW_SPACE
          GarbageCollectionReason.kTask } rfl
    constructor
    · rw [RunInternalDuring_of_dcheck iso id _ _ hcheck]
      simp only [List.foldl_cons, List.foldl_nil, JobCall.apply, CollectGarbageDuring, hveto,
        Bool.false_eq_true, if_false]
      rw [hschedule2]
      exact ⟨_, rfl, rfl, rfl, rfl, rfl⟩
    · rw [RunInternalDuring_of_dcheck iso id _ _ hcheck]
      simp only [List.foldl_cons, List.foldl_nil, JobCall.apply, CollectGarbageDuring, hveto,
        Bool.false_eq_true, if_false]
      rw [hcancel2]
      exact ⟨_, rfl, rfl⟩

/-- C12 at a concrete state: while the task 7, scheduled from `idleIsolate`, is
collecting, the task 8 is scheduled; when `RunInternal` returns, the task 8 is
posted and recorded. -/
theorem C12_clear_precedes_collection_witness :
    ∃ after : Isolate,
      RunInternalDuring (ScheduleTask idleIsolate 7) 7 [] [JobCall.schedule 8] = some after ∧
      after.heap.collect_garbage_calls =
        [(AllocationSpace.NEW_SPACE, GarbageCollectionReason.kTask)] ∧
      after.foreground_task_runner.non_nestable_tasks = [{ id := 7 }, { id := 8 }] ∧
      after.minor_gc_job.current_task_id_ = 8 := by
  have h := C12_clear_precedes_collection (ScheduleTask idleIsolate 7) 7 8
    (by decide) (by decide) (by decide) (by decide)
  obtain ⟨after, hrun, hcalls, hqueue, _, hcur⟩ := (h.2.2.2 (Or.inr (by decide))).1
  exact ⟨after, hrun, hcalls, hqueue, hcur⟩

/-! ## The consistency check at the start of `RunInternal` -/

/-- Under the bookkeeping invariant, a posted task that has neither started nor
been aborted is the task that the job records. -/
theorem current_task_id_of_outstanding (iso : Isolate) (task : Task)
    (hinv : SchedulingInvariant iso)
    (hposted : task ∈ iso.foreground_task_runner.non_nestable_tasks)
    (hlive : task.id ∈ iso.cancelable_task_manager.cancelable_tasks) :
    iso.minor_gc_job.current_task_id_ = task.id := by
  have hout : task ∈ OutstandingTasks iso := by
    unfold OutstandingTasks
    rw [List.mem_filter]
    exact ⟨hposted, by simpa using hlive⟩
  by_cases hidle : iso.minor_gc_job.current_task_id_ = kInvalidTaskId
  · rw [hinv.1 hidle] at hout
    cases hout
  · rw [hinv.2 hidle, List.mem_singleton] at hout
    rw [hout]

/-- Running `RunInternal` of the task whose id the job records does not fail. -/
theorem RunInternal_ne_none (iso : Isolate) (id : TaskId)
    (h : iso.minor_gc_job.current_task_id_ = id) : RunInternal iso id ≠ none := by
  rw [RunInternal_of_dcheck iso id (RunInternal_dcheck_of_eq iso id h)]
  split_ifs <;> simp

/-- C18. Assertion validity: in the step model of job, runner queue and registry
(steps `ScheduleTask`, `CancelTaskIfScheduled`, the runner starting a posted,
non-aborted task; the abort of a task that has not started always succeeds), in
every reachable state the job's `current_task_id_` equals the id of every posted
task that has neither started nor been aborted. So when the runner starts the
task at the head of its queue, the check `DCHECK_EQ(job_->current_task_id_,
id())` passes, also with `DCHECK`s compiled in: the step does not fail, and it
leaves `current_task_id_` cleared. -/
theorem C18_dcheck_never_fails (iso : Isolate) (task : Task)
    (hreach : Reachable iso)
    (hposted : task ∈ iso.foreground_task_runner.non_nestable_tasks)
    (hlive : task.id ∈ iso.cancelable_task_manager.cancelable_tasks) :
    iso.minor_gc_job.current_task_id_ = task.id ∧
    (∀ started : Isolate, started.minor_gc_job = iso.minor_gc_job →
      RunInternal_dcheck started task.id = true) ∧
    (∀ rest : List Task, iso.foreground_task_runner.non_nestable_tasks = task :: rest →
      ∃ next : Isolate, RunNextTask iso = some next ∧
        next.minor_gc_job.current_task_id_ = kInvalidTaskId) := by
  have hcur := current_task_id_of_outstanding iso task
    (SchedulingInvariant_of_reachable iso hreach) hposted hlive
  refine ⟨hcur, ?_, ?_⟩
  · intro started hjob
    exact RunInternal_dcheck_of_eq started task.id (by rw [hjob]; exact hcur)
  · intro rest hq
    have hreg : iso.cancelable_task_manager.cancelable_tasks.contains task.id = true := by
      simpa using hlive
    unfold RunNextTask
    rw [hq]
    simp only
    unfold Task.Run
    simp only [hreg, if_true]
    split
    · rename_i hnone
      exact absurd hnone (RunInternal_ne_none _ _ hcur)
    · rename_i done hdone
      exact ⟨_, rfl, (RunInternal_frame _ _ _ hdone).2.2⟩

/-- C18 at a concrete reachable state: after the task 7 is scheduled from
`idleIsolate`, the runner starts it with `DCHECK`s compiled in, and the check
passes. -/
theorem C18_dcheck_never_fails_witness :
    idleIsolate.dcheck_is_on = true ∧
    Reachable (ScheduleTask idleIsolate 7) ∧
    (ScheduleTask idleIsolate 7).minor_gc_job.current_task_id_ = 7 ∧
    ∃ next : Isolate, RunNextTask (ScheduleTask idleIsolate 7) = some next ∧
      next.minor_gc_job.current_task_id_ = kInvalidTaskId := by
  have hreach : Reachable (ScheduleTask idleIsolate 7) :=
    Reachable.step _ _ (Reachable.init idleIsolate (by decide))
      (Step.schedule idleIsolate 7 (by decide))
  have h := C18_dcheck_never_fails (ScheduleTask idleIsolate 7) { id := 7 } hreach
    (by decide) (by decide)
  exact ⟨rfl, hreach, h.1, h.2.2 [] (by decide)⟩

/-! ## Trigger percentages at and beyond the nominal range -/

/-- The trigger size in terms of the local variable `young_capacity`. -/
theorem YoungGenerationTaskTriggerSize_eq (v8_flags : Flags) (heap : Heap) :
    YoungGenerationTaskTriggerSize v8_flags heap =
      mulSizeT (young_capacity v8_flags heap) (toSizeT v8_flags.minor_gc_task_trigger) / 100 := by
  unfold YoungGenerationTaskTriggerSize young_capacity
  rfl

/-- Conversion of a non-negative percentage of at most 100 to `size_t` keeps its
value. -/
theorem toSizeT_of_nominal (P : Int) (h0 : 0 ≤ P) (h100 : P ≤ 100) :
    toSizeT P = P.toNat := by
  unfold toSizeT kSizeTModulus
  have hlt : P < ((2 ^ 64 : Nat) : Int) := by
    have : ((2 ^ 64 : Nat) : Int) = 18446744073709551616 := by norm_num
    omega
  rw [Int.emod_eq_of_lt h0 hlt]

/-- C16, as stated, fails in two ways. With new-space capacity 50 and percentage
101 the threshold is `50 * 101 / 100 = 50`, which is not above the capacity, and
a full new space reaches the trigger. With new-space capacity `2 ^ 63` and
percentage 200 the product wraps to 0 in `size_t` and the threshold is 0. -/
theorem C16_trigger_above_capacity_counterexample :
    YoungGenerationTaskTriggerSize
        { minor_gc_task := true, minor_gc_task_trigger := 101,
          separate_gc_phases := false, sticky_mark_bits := false }
        { is_tearing_down := false,
          new_space := { TotalCapacity := 50, Size := 50 },
          sticky_space := { Capacity := 0, old_objects_size := 0, young_objects_size := 0 },
          is_major_marking := false, collect_garbage_calls := [] } = 50 ∧
    YoungGenerationSizeTaskTriggerReached
        { minor_gc_task := true, minor_gc_task_trigger := 101,
          separate_gc_phases := false, sticky_mark_bits := false }
        { is_tearing_down := false,
          new_space := { TotalCapacity := 50, Size := 50 },
          sticky_space := { Capacity := 0, old_objects_size := 0, young_objects_size := 0 },
          is_major_marking := false, collect_garbage_calls := [] } = true ∧
    YoungGenerationTaskTriggerSize
        { minor_gc_task := true, minor_gc_task_trigger := 200,
          separate_gc_phases := false, sticky_mark_bits := false }
        { is_tearing_down := false,
          new_space := { TotalCapacity := 9223372036854775808, Size := 0 },
          sticky_space := { Capacity := 0, old_objects_size := 0, young_objects_size := 0 },
          is_major_marking := false, collect_garbage_calls := [] } = 0 := by
  decide

/-- C16, amended. For every trigger percentage `P > 100` and every heap state in
which the product of the young capacity and `P` fits in `size_t`,
`YoungGenerationTaskTriggerSize` returns a threshold that is at least the young
capacity it was computed from (new-space `TotalCapacity`, or sticky `Capacity`
minus `old_objects_size`), and strictly greater exactly when
`young_capacity * (P - 100) ≥ 100`. -/
theorem C16_trigger_above_capacity (v8_flags : Flags) (heap : Heap) (P : Int)
    (hP : v8_flags.minor_gc_task_trigger = P) (h100 : 100 < P)
    (hfit : (young_capacity v8_flags heap : Int) * P < 2 ^ 64) :
    young_capacity v8_flags heap ≤ YoungGenerationTaskTriggerSize v8_flags heap ∧
    (young_capacity v8_flags heap < YoungGenerationTaskTriggerSize v8_flags heap ↔
      100 ≤ (young_capacity v8_flags heap : Int) * (P - 100)) := by
  rw [YoungGenerationTaskTriggerSize_eq, hP]
  generalize young_capacity v8_flags heap = C at hfit ⊢
  have hnn : 0 ≤ (C : Int) * (P - 100) :=
    mul_nonneg (Int.natCast_nonneg C) (by omega)
  have hsplit : (C : Int) * (P - 100) = (C : Int) * P - 100 * (C : Int) := by ring
  have hlo : 0 ≤ (C : Int) * P := by omega
  have key := mulSizeT_toSizeT_div C P hlo hfit
  rw [hsplit] at hnn ⊢
  generalize mulSizeT C (toSizeT P) / 100 = T at key ⊢
  generalize (C : Int) * P = x at hnn hlo key ⊢
  omega

/-- C16 (amended) at a concrete case: new-space capacity 1,000,000 and
percentage 150 give the threshold 1,500,000, above the capacity. -/
theorem C16_trigger_above_capacity_witness :
    young_capacity
        { minor_gc_task := true, minor_gc_task_trigger := 150,
          separate_gc_phases := false, sticky_mark_bits := false }
        { is_tearing_down := false,
          new_space := { TotalCapacity := 1000000, Size := 0 },
          sticky_space := { Capacity := 0, old_objects_size := 0, young_objects_size := 0 },
          is_major_marking := false, collect_garbage_calls := [] } <
      YoungGenerationTaskTriggerSize
        { minor_gc_task := true, minor_gc_task_trigger := 150,
          separate_gc_phases := false, sticky_mark_bits := false }
        { is_tearing_down := false,
          new_space := { TotalCapacity := 1000000, Size := 0 },
          sticky_space := { Capacity := 0, old_objects_size := 0, young_objects_size := 0 },
          is_major_marking := false, collect_garbage_calls := [] } :=
  (C16_trigger_above_capacity _ _ 150 rfl (by decide) (by decide)).2.2 (by decide)

/-- C17. With the trigger percentage 0, for every heap state and in both modes,
`YoungGenerationTaskTriggerSize` returns 0 and
`YoungGenerationSizeTaskTriggerReached` returns true: the trigger is reached
at once, also with no occupied bytes. -/
theorem C17_trigger_percentage_zero (v8_flags : Flags) (heap : Heap)
    (hP : v8_flags.minor_gc_task_trigger = 0) :
    YoungGenerationTaskTriggerSize v8_flags heap = 0 ∧
    YoungGenerationSizeTaskTriggerReached v8_flags heap = true := by
  have hzero : toSizeT 0 = 0 := by decide
  have hsize : YoungGenerationTaskTriggerSize v8_flags heap = 0 := by
    rw [YoungGenerationTaskTriggerSize_eq, hP, hzero]
    unfold mulSizeT
    rw [Nat.mul_zero, Nat.zero_mod, Nat.zero_div]
  refine ⟨hsize, ?_⟩
  unfold YoungGenerationSizeTaskTriggerReached
  rw [hsize]
  cases v8_flags.sticky_mark_bits <;> simp

/-- C17 at concrete states: percentage 0 with empty young spaces, in
separate-space mode and in sticky mode. -/
theorem C17_trigger_percentage_zero_witness :
    (YoungGenerationTaskTriggerSize
        { minor_gc_task := true, minor_gc_task_trigger := 0,
          separate_gc_phases := false, sticky_mark_bits := false }
        { is_tearing_down := false,
          new_space := { TotalCapacity := 1000000, Size := 0 },
          sticky_space := { Capacity := 0, old_objects_size := 0, young_objects_size := 0 },
          is_major_marking := false, collect_garbage_calls := [] } = 0 ∧
      YoungGenerationSizeTaskTriggerReached
        { minor_gc_task := true, minor_gc_task_trigger := 0,
          separate_gc_phases := false, sticky_mark_bits := false }
        { is_tearing_down := false,
          new_space := { TotalCapacity := 1000000, Size := 0 },
          sticky_space := { Capacity := 0, old_objects_size := 0, young_objects_size := 0 },
          is_major_marking := false, collect_garbage_calls := [] } = true) ∧
    YoungGenerationSizeTaskTriggerReached
        { minor_gc_task := true, minor_gc_task_trigger := 0,
          separate_gc_phases := false, sticky_mark_bits := true }
        { is_tearing_down := false,
          new_space := { TotalCapacity := 0, Size := 0 },
          sticky_space :=
            { Capacity := 1000000, old_objects_size := 400000, young_objects_size := 0 },
          is_major_marking := false, collect_garbage_calls := [] } = true :=
  ⟨C17_trigger_percentage_zero _ _ rfl, by decide⟩

/-- C19. For every trigger percentage `P` with `0 ≤ P ≤ 100` and every heap
state, the value `young_capacity * P / 100` that
`YoungGenerationTaskTriggerSize` computes in 64-bit unsigned arithmetic is at
most the young capacity it was computed from, also when the product wraps
modulo `2 ^ 64`: a nominal percentage never gives a threshold above the
capacity. -/
theorem C19_trigger_at_most_capacity (v8_flags : Flags) (heap : Heap) (P : Int)
    (hP : v8_flags.minor_gc_task_trigger = P) (h0 : 0 ≤ P) (h100 : P ≤ 100) :
    YoungGenerationTaskTriggerSize v8_flags heap ≤ young_capacity v8_flags heap := by
  rw [YoungGenerationTaskTriggerSize_eq, hP, toSizeT_of_nominal P h0 h100]
  generalize young_capacity v8_flags heap = C
  have hp : P.toNat ≤ 100 := by omega
  have hmod : mulSizeT C P.toNat ≤ C * P.toNat := by
    unfold mulSizeT
    exact Nat.mod_le _ _
  have hmul : C * P.toNat ≤ C * 100 := Nat.mul_le_mul_left C hp
  generalize mulSizeT C P.toNat = m at hmod
  generalize C * P.toNat = x at hmod hmul
  omega

/-- C19 at a concrete case in which the product wraps: new-space capacity
`2 ^ 63` and percentage 50. The product `2 ^ 63 * 50` does not fit in `size_t`,
and the threshold computed from the wrapped product, 0, is below the
capacity. -/
theorem C19_trigger_at_most_capacity_witness :
    ¬ (9223372036854775808 * 50 < 2 ^ 64) ∧
    YoungGenerationTaskTriggerSize
        { minor_gc_task := true, minor_gc_task_trigger := 50,
          separate_gc_phases := false, sticky_mark_bits := false }
        { is_tearing_down := false,
          new_space := { TotalCapacity := 9223372036854775808, Size := 0 },
          sticky_space := { Capacity := 0, old_objects_size := 0, young_objects_size := 0 },
          is_major_marking := false, collect_garbage_calls := [] } ≤
      young_capacity
        { minor_gc_task := true, minor_gc_task_trigger := 50,
          separate_gc_phases := false, sticky_mark_bits := false }
        { is_tearing_down := false,
          new_space := { TotalCapacity := 9223372036854775808, Size := 0 },
          sticky_space := { Capacity := 0, old_objects_size := 0, young_objects_size := 0 },
          is_major_marking := false, collect_garbage_calls := [] } :=
  ⟨by decide, C19_trigger_at_most_capacity _ _ 50 rfl (by decide) (by decide)⟩

end V8
